import Mathlib

/-!
Shallow embedding of the ClickHouse telemetry exporter (otel-distribution):
SQL schema constants, row builders, batch accumulators and the
transactional insert path, together with theorems checking the
specification claims against this embedding.
-/

set_option maxRecDepth 20000

namespace OtelCH

/-- Verbatim SQL template constant createSumTableSQL from the source. -/
def createSumTableSQL : String :=
  "
	CREATE TABLE IF NOT EXISTS %s %s (
		ResourceAttributes JSON,
		ResourceSchemaUrl String CODEC(ZSTD(1)),
		ScopeName String CODEC(ZSTD(1)),
		ScopeVersion String CODEC(ZSTD(1)),
		ScopeAttributes JSON,
		ScopeDroppedAttrCount UInt32 CODEC(ZSTD(1)),
		ScopeSchemaUrl String CODEC(ZSTD(1)),
		ServiceName LowCardinality(String) CODEC(ZSTD(1)),
		MetricName String CODEC(ZSTD(1)),
		MetricDescription String CODEC(ZSTD(1)),
		MetricUnit String CODEC(ZSTD(1)),
		Attributes JSON,
		StartTimeUnix DateTime64(9) CODEC(Delta, ZSTD(1)),
		TimeUnix DateTime64(9) CODEC(Delta, ZSTD(1)),
		Value Float64 CODEC(ZSTD(1)),
		Flags UInt32  CODEC(ZSTD(1)),
		Exemplars Nested (
			FilteredAttributes JSON,
			TimeUnix DateTime64(9),
			Value Float64,
			SpanId String,
			TraceId String
		) CODEC(ZSTD(1)),
		AggregationTemporality Int32 CODEC(ZSTD(1)),
		IsMonotonic Boolean CODEC(Delta, ZSTD(1)),
) ENGINE = %s
%s
PARTITION BY toDate(TimeUnix)
ORDER BY (ServiceName, MetricName, Attributes, toUnixTimestamp64Nano(TimeUnix))
SETTINGS index_granularity=8192, ttl_only_drop_parts = 1;
"

/-- Verbatim SQL template constant insertSumTableSQL from the source. -/
def insertSumTableSQL : String :=
  "INSERT INTO %s (
    ResourceAttributes,
    ResourceSchemaUrl,
    ScopeName,
    ScopeVersion,
    ScopeAttributes,
	ScopeDroppedAttrCount,
    ScopeSchemaUrl,
    ServiceName,
    MetricName,
    MetricDescription,
    MetricUnit,
    Attributes,
    StartTimeUnix,
    TimeUnix,
    Value,
    Flags,
    Exemplars.FilteredAttributes,
	Exemplars.TimeUnix,
    Exemplars.Value,
    Exemplars.SpanId,
    Exemplars.TraceId,
	AggregationTemporality,
	IsMonotonic) VALUES (?,?,?,?,?,?,?,?,?,?,?,?,?,?,?,?,?,?,?,?,?,?,?)"

/-- Verbatim SQL template constant createGaugeTableSQL from the source. -/
def createGaugeTableSQL : String :=
  "
CREATE TABLE IF NOT EXISTS %s %s (
	ResourceAttributes JSON,
	ResourceSchemaUrl String CODEC(ZSTD(1)),
	ScopeName String CODEC(ZSTD(1)),
	ScopeVersion String CODEC(ZSTD(1)),
	ScopeAttributes JSON,
	ScopeDroppedAttrCount UInt32 CODEC(ZSTD(1)),
	ScopeSchemaUrl String CODEC(ZSTD(1)),
	ServiceName LowCardinality(String) CODEC(ZSTD(1)),
	MetricName String CODEC(ZSTD(1)),
	MetricDescription String CODEC(ZSTD(1)),
	MetricUnit String CODEC(ZSTD(1)),
	Attributes JSON,
	StartTimeUnix DateTime64(9) CODEC(Delta, ZSTD(1)),
	TimeUnix DateTime64(9) CODEC(Delta, ZSTD(1)),
	Value Float64 CODEC(ZSTD(1)),
	Flags UInt32 CODEC(ZSTD(1)),
	Exemplars Nested (
		FilteredAttributes JSON,
		TimeUnix DateTime64(9),
		Value Float64,
		SpanId String,
		TraceId String
	) CODEC(ZSTD(1)),
) ENGINE = %s
%s
PARTITION BY toDate(TimeUnix)
ORDER BY (ServiceName, MetricName, Attributes, toUnixTimestamp64Nano(TimeUnix))
SETTINGS index_granularity=8192, ttl_only_drop_parts = 1;
"

/-- Verbatim SQL template constant insertGaugeTableSQL from the source. -/
def insertGaugeTableSQL : String :=
  "INSERT INTO %s (
    ResourceAttributes,
    ResourceSchemaUrl,
    ScopeName,
    ScopeVersion,
    ScopeAttributes,
    ScopeDroppedAttrCount,
    ScopeSchemaUrl,
    ServiceName,
    MetricName,
    MetricDescription,
    MetricUnit,
    Attributes,
    StartTimeUnix,
    TimeUnix,
    Value,
    Flags,
    Exemplars.FilteredAttributes,
		Exemplars.TimeUnix,
    Exemplars.Value,
    Exemplars.SpanId,
    Exemplars.TraceId) VALUES (?,?,?,?,?,?,?,?,?,?,?,?,?,?,?,?,?,?,?,?,?)"

/-- Verbatim SQL template constant createHistogramTableSQL from the source. -/
def createHistogramTableSQL : String :=
  "
CREATE TABLE IF NOT EXISTS %s %s (
		ResourceAttributes JSON,
		ResourceSchemaUrl String CODEC(ZSTD(1)),
		ScopeName String CODEC(ZSTD(1)),
		ScopeVersion String CODEC(ZSTD(1)),
		ScopeAttributes JSON,
		ScopeDroppedAttrCount UInt32 CODEC(ZSTD(1)),
		ScopeSchemaUrl String CODEC(ZSTD(1)),
		ServiceName LowCardinality(String) CODEC(ZSTD(1)),
		MetricName String CODEC(ZSTD(1)),
		MetricDescription String CODEC(ZSTD(1)),
		MetricUnit String CODEC(ZSTD(1)),
		Attributes JSON,
		StartTimeUnix DateTime64(9) CODEC(Delta, ZSTD(1)),
		TimeUnix DateTime64(9) CODEC(Delta, ZSTD(1)),
		Count UInt64 CODEC(Delta, ZSTD(1)),
		Sum Float64 CODEC(ZSTD(1)),
		BucketCounts Array(UInt64) CODEC(ZSTD(1)),
		ExplicitBounds Array(Float64) CODEC(ZSTD(1)),
		Exemplars Nested (
			FilteredAttributes JSON,
			TimeUnix DateTime64(9),
			Value Float64,
			SpanId String,
			TraceId String
		) CODEC(ZSTD(1)),
		Flags UInt32 CODEC(ZSTD(1)),
		Min Float64 CODEC(ZSTD(1)),
		Max Float64 CODEC(ZSTD(1)),
		AggregationTemporality Int32 CODEC(ZSTD(1)),
) ENGINE = %s
%s
PARTITION BY toDate(TimeUnix)
ORDER BY (ServiceName, MetricName, Attributes, toUnixTimestamp64Nano(TimeUnix))
SETTINGS index_granularity=8192, ttl_only_drop_parts = 1;
"

/-- Verbatim SQL template constant insertHistogramTableSQL from the source. -/
def insertHistogramTableSQL : String :=
  "INSERT INTO %s (
	ResourceAttributes,
    ResourceSchemaUrl,
    ScopeName,
    ScopeVersion,
    ScopeAttributes,
    ScopeDroppedAttrCount,
    ScopeSchemaUrl,
    ServiceName,
    MetricName,
    MetricDescription,
    MetricUnit,
    Attributes,
	StartTimeUnix,
	TimeUnix,
	Count,
	Sum,
	BucketCounts,
	ExplicitBounds,
  	Exemplars.FilteredAttributes,
	Exemplars.TimeUnix,
    Exemplars.Value,
    Exemplars.SpanId,
    Exemplars.TraceId,
	Flags,
	Min,
	Max,
	AggregationTemporality) VALUES (?,?,?,?,?,?,?,?,?,?,?,?,?,?,?,?,?,?,?,?,?,?,?,?,?,?,?)"

/-- Verbatim SQL template constant createSummaryTableSQL from the source. -/
def createSummaryTableSQL : String :=
  "
CREATE TABLE IF NOT EXISTS %s %s (
	ResourceAttributes JSON,
	ResourceSchemaUrl String CODEC(ZSTD(1)),
	ScopeName String CODEC(ZSTD(1)),
	ScopeVersion String CODEC(ZSTD(1)),
	ScopeAttributes JSON,
	ScopeDroppedAttrCount UInt32 CODEC(ZSTD(1)),
	ScopeSchemaUrl String CODEC(ZSTD(1)),
	ServiceName LowCardinality(String) CODEC(ZSTD(1)),
	MetricName String CODEC(ZSTD(1)),
	MetricDescription String CODEC(ZSTD(1)),
	MetricUnit String CODEC(ZSTD(1)),
	Attributes JSON,
	StartTimeUnix DateTime64(9) CODEC(Delta, ZSTD(1)),
	TimeUnix DateTime64(9) CODEC(Delta, ZSTD(1)),
	Count UInt64 CODEC(Delta, ZSTD(1)),
	Sum Float64 CODEC(ZSTD(1)),
	ValueAtQuantiles Nested(
		Quantile Float64,
		Value Float64
	) CODEC(ZSTD(1)),
	Flags UInt32  CODEC(ZSTD(1)),
) ENGINE = %s
%s
PARTITION BY toDate(TimeUnix)
ORDER BY (ServiceName, MetricName, Attributes, toUnixTimestamp64Nano(TimeUnix))
SETTINGS index_granularity=8192, ttl_only_drop_parts = 1;
"

/-- Verbatim SQL template constant insertSummaryTableSQL from the source. -/
def insertSummaryTableSQL : String :=
  "INSERT INTO %s (
	ResourceAttributes,
    ResourceSchemaUrl,
    ScopeName,
    ScopeVersion,
    ScopeAttributes,
    ScopeDroppedAttrCount,
    ScopeSchemaUrl,
    ServiceName,
    MetricName,
    MetricDescription,
    MetricUnit,
    Attributes,
	StartTimeUnix,
	TimeUnix,
    Count,
    Sum,
    ValueAtQuantiles.Quantile,
	ValueAtQuantiles.Value,
    Flags) VALUES (?,?,?,?,?,?,?,?,?,?,?,?,?,?,?,?,?,?,?)"

/-- Verbatim SQL template constant createExpHistogramTableSQL from the source. -/
def createExpHistogramTableSQL : String :=
  "
CREATE TABLE IF NOT EXISTS %s %s (
	ResourceAttributes JSON,
	ResourceSchemaUrl String CODEC(ZSTD(1)),
	ScopeName String CODEC(ZSTD(1)),
	ScopeVersion String CODEC(ZSTD(1)),
	ScopeAttributes JSON,
	ScopeDroppedAttrCount UInt32 CODEC(ZSTD(1)),
	ScopeSchemaUrl String CODEC(ZSTD(1)),
	ServiceName LowCardinality(String) CODEC(ZSTD(1)),
	MetricName String CODEC(ZSTD(1)),
	MetricDescription String CODEC(ZSTD(1)),
	MetricUnit String CODEC(ZSTD(1)),
	Attributes JSON,
	StartTimeUnix DateTime64(9) CODEC(Delta, ZSTD(1)),
	TimeUnix DateTime64(9) CODEC(Delta, ZSTD(1)),
	Count UInt64 CODEC(Delta, ZSTD(1)),
	Sum Float64 CODEC(ZSTD(1)),
	Scale Int32 CODEC(ZSTD(1)),
	ZeroCount UInt64 CODEC(ZSTD(1)),
	PositiveOffset Int32 CODEC(ZSTD(1)),
	PositiveBucketCounts Array(UInt64) CODEC(ZSTD(1)),
	NegativeOffset Int32 CODEC(ZSTD(1)),
	NegativeBucketCounts Array(UInt64) CODEC(ZSTD(1)),
	Exemplars Nested (
		FilteredAttributes JSON,
		TimeUnix DateTime64(9),
		Value Float64,
		SpanId String,
		TraceId String
	) CODEC(ZSTD(1)),
	Flags UInt32  CODEC(ZSTD(1)),
	Min Float64 CODEC(ZSTD(1)),
	Max Float64 CODEC(ZSTD(1)),
	AggregationTemporality Int32 CODEC(ZSTD(1)),
) ENGINE = %s
%s
PARTITION BY toDate(TimeUnix)
ORDER BY (ServiceName, MetricName, Attributes, toUnixTimestamp64Nano(TimeUnix))
SETTINGS index_granularity=8192, ttl_only_drop_parts = 1;
"

/-- Verbatim SQL template constant insertExpHistogramTableSQL from the source. -/
def insertExpHistogramTableSQL : String :=
  "INSERT INTO %s (
	ResourceAttributes,
    ResourceSchemaUrl,
    ScopeName,
    ScopeVersion,
    ScopeAttributes,
    ScopeDroppedAttrCount,
    ScopeSchemaUrl,
    ServiceName,
    MetricName,
    MetricDescription,
    MetricUnit,
    Attributes,
		StartTimeUnix,
		TimeUnix,
		Count,
		Sum,
    Scale,
    ZeroCount,
		PositiveOffset,
		PositiveBucketCounts,
		NegativeOffset,
		NegativeBucketCounts,
  	Exemplars.FilteredAttributes,
		Exemplars.TimeUnix,
    Exemplars.Value,
    Exemplars.SpanId,
    Exemplars.TraceId,
		Flags,
		Min,
		Max,
		AggregationTemporality) VALUES (?,?,?,?,?,?,?,?,?,?,?,?,?,?,?,?,?,?,?,?,?,?,?,?,?,?,?,?,?,?,?)"

/-- Verbatim SQL template constant createTracesTableSQL from the source. -/
def createTracesTableSQL : String :=
  "
CREATE TABLE IF NOT EXISTS %s %s (
	Timestamp DateTime64(9) CODEC(Delta, ZSTD(1)),
	TraceId String CODEC(ZSTD(1)),
	SpanId String CODEC(ZSTD(1)),
	ParentSpanId String CODEC(ZSTD(1)),
	TraceState String CODEC(ZSTD(1)),
	SpanName LowCardinality(String) CODEC(ZSTD(1)),
	SpanKind LowCardinality(String) CODEC(ZSTD(1)),
	ServiceName LowCardinality(String) CODEC(ZSTD(1)),
	ResourceAttributes JSON,
	ScopeName String CODEC(ZSTD(1)),
	ScopeVersion String CODEC(ZSTD(1)),
	SpanAttributes JSON,
	Duration UInt64 CODEC(ZSTD(1)),
	StatusCode LowCardinality(String) CODEC(ZSTD(1)),
	StatusMessage String CODEC(ZSTD(1)),
	Events Nested (
		Timestamp DateTime64(9),
		Name LowCardinality(String),
		Attributes JSON
	) CODEC(ZSTD(1)),
	Links Nested (
		TraceId String,
		SpanId String,
		TraceState String,
		Attributes JSON
	) CODEC(ZSTD(1)),
	INDEX idx_trace_id TraceId TYPE bloom_filter(0.001) GRANULARITY 1,
	INDEX idx_duration Duration TYPE minmax GRANULARITY 1
) ENGINE = %s
PARTITION BY toDate(Timestamp)
ORDER BY (ServiceName, SpanName, toDateTime(Timestamp))
%s
SETTINGS index_granularity=8192, ttl_only_drop_parts = 1;
"

/-- Verbatim SQL template constant insertTracesSQLTemplate from the source. -/
def insertTracesSQLTemplate : String :=
  "INSERT INTO %s (
                        Timestamp,
                        TraceId,
                        SpanId,
                        ParentSpanId,
                        TraceState,
                        SpanName,
                        SpanKind,
                        ServiceName,
					    ResourceAttributes,
						ScopeName,
						ScopeVersion,
                        SpanAttributes,
                        Duration,
                        StatusCode,
                        StatusMessage,
                        Events.Timestamp,
                        Events.Name,
                        Events.Attributes,
                        Links.TraceId,
                        Links.SpanId,
                        Links.TraceState,
                        Links.Attributes
                        ) VALUES (
                                  ?,
                                  ?,
                                  ?,
                                  ?,
                                  ?,
                                  ?,
                                  ?,
                                  ?,
                                  ?,
                                  ?,
                                  ?,
                                  ?,
                                  ?,
                                  ?,
                                  ?,
                                  ?,
                                  ?,
                                  ?,
                                  ?,
                                  ?,
                                  ?,
                                  ?
                                  )"

/-- Verbatim SQL template constant createTraceIDTsTableSQL from the source. -/
def createTraceIDTsTableSQL : String :=
  "
CREATE TABLE IF NOT EXISTS %s_trace_id_ts %s (
     TraceId String CODEC(ZSTD(1)),
     Start DateTime CODEC(Delta, ZSTD(1)),
     End DateTime CODEC(Delta, ZSTD(1)),
     INDEX idx_trace_id TraceId TYPE bloom_filter(0.01) GRANULARITY 1
) ENGINE = %s
PARTITION BY toDate(Start)
ORDER BY (TraceId, Start)
%s
SETTINGS index_granularity=8192, ttl_only_drop_parts = 1;
"

/-- Verbatim SQL template constant createTraceIDTsMaterializedViewSQL from the source. -/
def createTraceIDTsMaterializedViewSQL : String :=
  "
CREATE MATERIALIZED VIEW IF NOT EXISTS %s_trace_id_ts_mv %s
TO %s.%s_trace_id_ts
AS SELECT
	TraceId,
	min(Timestamp) as Start,
	max(Timestamp) as End
FROM
%s.%s
WHERE TraceId != ''
GROUP BY TraceId;
"

/-- Verbatim SQL template constant createLogsTableSQL from the source. -/
def createLogsTableSQL : String :=
  "
CREATE TABLE IF NOT EXISTS %s %s (
	Timestamp DateTime64(9) CODEC(Delta(8), ZSTD(1)),
	TimestampTime DateTime DEFAULT toDateTime(Timestamp),
	TraceId String CODEC(ZSTD(1)),
	SpanId String CODEC(ZSTD(1)),
	TraceFlags UInt8,
	SeverityText LowCardinality(String) CODEC(ZSTD(1)),
	SeverityNumber UInt8,
	ServiceName LowCardinality(String) CODEC(ZSTD(1)),
	Body String CODEC(ZSTD(1)),
	ResourceSchemaUrl LowCardinality(String) CODEC(ZSTD(1)),
	ResourceAttributes JSON,
	ScopeSchemaUrl LowCardinality(String) CODEC(ZSTD(1)),
	ScopeName String CODEC(ZSTD(1)),
	ScopeVersion LowCardinality(String) CODEC(ZSTD(1)),
	ScopeAttributes JSON,
	LogAttributes JSON,

	INDEX idx_trace_id TraceId TYPE bloom_filter(0.001) GRANULARITY 1,

	INDEX idx_body Body TYPE tokenbf_v1(32768, 3, 0) GRANULARITY 8
) ENGINE = %s
PARTITION BY toDate(TimestampTime)
PRIMARY KEY (ServiceName, TimestampTime)
ORDER BY (ServiceName, TimestampTime, Timestamp)
%s
SETTINGS index_granularity = 8192, ttl_only_drop_parts = 1;
"

/-- Verbatim SQL template constant insertLogsSQLTemplate from the source. -/
def insertLogsSQLTemplate : String :=
  "INSERT INTO %s (
                        Timestamp,
                        TraceId,
                        SpanId,
                        TraceFlags,
                        SeverityText,
                        SeverityNumber,
                        ServiceName,
                        Body,
                        ResourceSchemaUrl,
                        ResourceAttributes,
                        ScopeSchemaUrl,
                        ScopeName,
                        ScopeVersion,
                        ScopeAttributes,
                        LogAttributes
                        ) VALUES (
                                  ?,
                                  ?,
                                  ?,
                                  ?,
                                  ?,
                                  ?,
                                  ?,
                                  ?,
                                  ?,
                                  ?,
                                  ?,
                                  ?,
                                  ?,
                                  ?,
                                  ?
                                  )"

/-- Whitespace test used when tokenizing the SQL templates. -/
def isWSChar (c : Char) : Bool := c = ' ' || c = '\t' || c = '\r' || c = '\n'

/-- Drop leading whitespace characters. -/
def dropWS (cs : List Char) : List Char := cs.dropWhile isWSChar

/-- Split a character list on a separator character. -/
def splitOnChar (sep : Char) (cs : List Char) : List (List Char) :=
  cs.foldr
    (fun c acc =>
      if c = sep then [] :: acc
      else
        match acc with
        | [] => [[c]]
        | l :: ls => (c :: l) :: ls)
    [[]]

/-- First whitespace-delimited token of a line. -/
def firstTok (cs : List Char) : List Char :=
  (dropWS cs).takeWhile (fun c => !(isWSChar c))

/-- Remainder of a line after its first token. -/
def restAfterTok (cs : List Char) : List Char :=
  (dropWS cs).dropWhile (fun c => !(isWSChar c))

/-- Does this column declaration line open a Nested composite column? -/
def nestedOpener (cs : List Char) : Bool :=
  List.isPrefixOf "Nested".data (dropWS (restAfterTok cs))

/-- Walk the lines of a CREATE TABLE body collecting declared column names in
order; a Nested block contributes its subcolumns prefixed by the composite
column name and a dot, INDEX declarations are skipped, and the list ends at
the closing parenthesis of the column list. -/
def createColsAux : Option (List Char) → List (List Char) → List (List Char)
  | _, [] => []
  | some p, line :: rest =>
    let t := dropWS line
    if t = [] then createColsAux (some p) rest
    else if t.head? = some ')' then createColsAux none rest
    else (p ++ '.' :: firstTok t) :: createColsAux (some p) rest
  | none, line :: rest =>
    let t := dropWS line
    if t = [] then createColsAux none rest
    else if t.head? = some ')' then []
    else if firstTok t = "INDEX".data then createColsAux none rest
    else if nestedOpener t then createColsAux (some (firstTok t)) rest
    else firstTok t :: createColsAux none rest

/-- Ordered column list declared by a CREATE TABLE SQL template, with Nested
composite columns expanded to their dotted subcolumns. -/
def parseCreateColumns (sql : String) : List String :=
  let ls := splitOnChar '\n' sql.data
  let body := ls.dropWhile (fun l => !(List.isPrefixOf "CREATE TABLE".data (dropWS l)))
  (createColsAux none body.tail).map String.mk

/-- Strip whitespace from both ends of a character list. -/
def trimWS (cs : List Char) : List Char :=
  ((dropWS cs).reverse.dropWhile isWSChar).reverse

/-- Ordered column-name list of an INSERT SQL template: the comma-separated
names between the opening parenthesis and the closing parenthesis that
precedes VALUES. -/
def parseInsertColumns (sql : String) : List String :=
  let afterParen := (sql.data.dropWhile (fun c => c ≠ '(')).tail
  let body := afterParen.takeWhile (fun c => c ≠ ')')
  ((splitOnChar ',' body).map trimWS).map String.mk

/-- Number of ? placeholders in an INSERT SQL template. -/
def countPlaceholders (sql : String) : Nat := sql.data.countP (fun c => c = '?')

/-! ## Identifier codec (src/unnamed/part_002) -/

/-- Hex alphabet used by the hex encoder (lowercase). -/
def hexAlphabet : List Char := "0123456789abcdef".data

/-- Lowercase hex digit of a nibble. -/
def hexDigit (n : Nat) : Char := hexAlphabet.getD n '0'

/-- Two lowercase hex digits of one byte, high nibble first. -/
def hexEncodeByte (b : Nat) : List Char := [hexDigit (b / 16), hexDigit (b % 16)]

/-- Behaviour of hex.EncodeToString on a byte sequence. -/
def hexEncodeToString (bs : List Nat) : String := String.mk ((bs.map hexEncodeByte).flatten)

/-- IsEmpty test of a span or trace identifier: every byte is zero. -/
def isEmptyID (bs : List Nat) : Bool := bs.all (fun b => b = 0)

/-- SpanIDToHexOrEmptyString from the source: empty string for the all-zero
identifier, otherwise the lowercase hex encoding of its 8 bytes. -/
def SpanIDToHexOrEmptyString (id : List Nat) : String :=
  if isEmptyID id then "" else hexEncodeToString id

/-- TraceIDToHexOrEmptyString from the source: empty string for the all-zero
identifier, otherwise the lowercase hex encoding of its 16 bytes. -/
def TraceIDToHexOrEmptyString (id : List Nat) : String :=
  if isEmptyID id then "" else hexEncodeToString id

/-! ## Attribute encoding and service-name resolution -/

/-- Attribute maps, embedded as ordered string-keyed string-valued entry lists. -/
abbrev AttrMap := List (String × String)

/-- JSON string literal (escaping elided; embedded values carry no escapes). -/
def jsonStr (s : String) : String := "\"" ++ s ++ "\""

/-- Modelled from the spec: AttributeEncoder, section 4.2 (the source file
defining AttributesToJSON is not under src; only its callers are). Serializes
the ordered attribute map into a deterministic JSON object string. -/
def AttributesToJSON (m : AttrMap) : String :=
  "\x7b" ++ String.intercalate "," (m.map (fun kv => jsonStr kv.1 ++ ":" ++ jsonStr kv.2)) ++ "\x7d"

/-- Modelled from the spec: MetadataResolver, section 4.3 (the source file
defining GetServiceName is not under src). Looks up the well-known
service-name resource attribute and falls back to a fixed sentinel. -/
def GetServiceName (resAttr : AttrMap) : String :=
  match resAttr.lookup "service.name" with
  | some v => v
  | none => "unknown_service"

/-! ## Row values, store state and the transactional insert machinery -/

deriving instance DecidableEq for Except

/-- A single positional value bound to one ? placeholder of an insert. -/
inductive Value where
  | vStr (s : String)
  | vInt (i : Int)
  | vUInt (n : Nat)
  | vFloat (q : Rat)
  | vBool (b : Bool)
  | vTime (t : Nat)
  | vStrArr (xs : List String)
  | vTimeArr (xs : List Nat)
  | vFloatArr (xs : List Rat)
  | vUIntArr (xs : List Nat)
  deriving DecidableEq, Repr

/-- One row: the ordered argument list of one ExecContext call. -/
abbrev Row := List Value

/-- Store-side operations issued during one push, in order. -/
inductive Op where
  | beginTx
  | prepare
  | exec (r : Row)
  | commit
  | rollback
  deriving DecidableEq, Repr

/-- The backing store: the rows committed so far. -/
structure DB where
  committed : List Row
  deriving DecidableEq, Repr

/-- Transaction buffer: rows executed inside the open transaction. -/
abbrev Tx := List Row

/-- Environment oracle for one push: which store calls fail and how. -/
structure DBEnv where
  beginErr : Option String
  prepareErr : Option String
  commitErr : Option String
  execErr : Row → Option String

/-- The per-row execution loop shared by every insert routine: execute the
prepared statement once per row in order; stop at the first failing row with a
wrapped ExecContext error. Returns the final transaction buffer and the trace
of exec operations issued. -/
def execLoop (env : DBEnv) : List Row → Tx → Except String Tx × List Op
  | [], tx => (.ok tx, [])
  | r :: rs, tx =>
    match env.execErr r with
    | some e => (.error ("ExecContext:" ++ e), [.exec r])
    | none =>
      match execLoop env rs (tx ++ [r]) with
      | (res, ops) => (res, .exec r :: ops)

/-- Transaction body of the metric insert routines: prepare the statement
(returning the prepare error unwrapped, as the metric inserts do), then run the
row loop. -/
def metricsTxBody (env : DBEnv) (rows : List Row) (tx : Tx) : Except String Tx × List Op :=
  match env.prepareErr with
  | some e => (.error e, [.prepare])
  | none =>
    match execLoop env rows tx with
    | (res, ops) => (res, .prepare :: ops)

/-- Transaction body of pushTraceData and pushLogsData: identical to the metric
body except that the prepare error is wrapped with a PrepareContext prefix. -/
def pushTxBody (env : DBEnv) (rows : List Row) (tx : Tx) : Except String Tx × List Op :=
  match env.prepareErr with
  | some e => (.error ("PrepareContext:" ++ e), [.prepare])
  | none =>
    match execLoop env rows tx with
    | (res, ops) => (res, .prepare :: ops)

/-- doWithTx from the source: begin a transaction, run the body, roll back
(via the deferred Rollback) when the body fails, otherwise commit; the store
gains the buffered rows only on a successful commit. -/
def doWithTx (env : DBEnv) (db : DB) (fn : Tx → Except String Tx × List Op) :
    Except String Unit × DB × List Op :=
  match env.beginErr with
  | some e => (.error ("db.Begin: " ++ e), db, [])
  | none =>
    match fn [] with
    | (.error e, ops) => (.error e, db, .beginTx :: ops ++ [.rollback])
    | (.ok tx, ops) =>
      match env.commitErr with
      | some e => (.error e, db, .beginTx :: ops ++ [.commit])
      | none => (.ok (), ⟨db.committed ++ tx⟩, .beginTx :: ops ++ [.commit])

/-! ## Metric data model (pdata shapes used by the exporter) -/

/-- Instrumentation scope: name, version, attributes, dropped-attribute count. -/
structure InstrumentationScope where
  name : String
  version : String
  attributes : AttrMap
  droppedAttributesCount : Nat
  deriving DecidableEq, Repr

/-- MetricsMetaData from the source: resource attributes and URL, scope URL and
instrumentation scope, shared by all data points of one metric. -/
structure MetricsMetaData where
  ResAttr : AttrMap
  ResURL : String
  ScopeURL : String
  ScopeInstr : InstrumentationScope
  deriving DecidableEq, Repr

/-- One exemplar attached to a numeric or histogram data point. -/
structure Exemplar where
  filteredAttributes : AttrMap
  timeUnix : Nat
  value : Rat
  spanID : List Nat
  traceID : List Nat
  deriving DecidableEq, Repr

/-- Declared value-type tag of a number data point. -/
inductive NumberValueType where
  | intVal
  | doubleVal
  | emptyVal
  deriving DecidableEq, Repr

/-- Sum and gauge data point: shared core plus the int/double value union. -/
structure NumberDataPoint where
  attributes : AttrMap
  startTimestamp : Nat
  timestamp : Nat
  intValue : Int
  doubleValue : Rat
  valueType : NumberValueType
  flags : Nat
  exemplars : List Exemplar
  deriving DecidableEq, Repr

/-- Histogram data point. -/
structure HistogramDataPoint where
  attributes : AttrMap
  startTimestamp : Nat
  timestamp : Nat
  count : Nat
  sum : Rat
  bucketCounts : List Nat
  explicitBounds : List Rat
  exemplars : List Exemplar
  flags : Nat
  min : Rat
  max : Rat
  deriving DecidableEq, Repr

/-- One side (positive or negative) of an exponential histogram data point. -/
structure ExpHistogramBuckets where
  offset : Int
  bucketCounts : List Nat
  deriving DecidableEq, Repr

/-- Exponential histogram data point. -/
structure ExpHistogramDataPoint where
  attributes : AttrMap
  startTimestamp : Nat
  timestamp : Nat
  count : Nat
  sum : Rat
  scale : Int
  zeroCount : Nat
  positive : ExpHistogramBuckets
  negative : ExpHistogramBuckets
  exemplars : List Exemplar
  flags : Nat
  min : Rat
  max : Rat
  deriving DecidableEq, Repr

/-- One quantile-value pair of a summary data point. -/
structure QuantileValue where
  quantile : Rat
  value : Rat
  deriving DecidableEq, Repr

/-- Summary data point. -/
structure SummaryDataPoint where
  attributes : AttrMap
  startTimestamp : Nat
  timestamp : Nat
  count : Nat
  sum : Rat
  quantileValues : List QuantileValue
  flags : Nat
  deriving DecidableEq, Repr

/-- pmetric.Sum: data points plus temporality ordinal and monotonicity flag. -/
structure Sum where
  dataPoints : List NumberDataPoint
  aggregationTemporality : Int
  isMonotonic : Bool
  deriving DecidableEq, Repr

/-- pmetric.Gauge. -/
structure Gauge where
  dataPoints : List NumberDataPoint
  deriving DecidableEq, Repr

/-- pmetric.Histogram. -/
structure Histogram where
  dataPoints : List HistogramDataPoint
  aggregationTemporality : Int
  deriving DecidableEq, Repr

/-- pmetric.ExponentialHistogram. -/
structure ExpHistogram where
  dataPoints : List ExpHistogramDataPoint
  aggregationTemporality : Int
  deriving DecidableEq, Repr

/-- pmetric.Summary. -/
structure Summary where
  dataPoints : List SummaryDataPoint
  deriving DecidableEq, Repr

/-- The dynamic metrics argument handed to the Add methods; the embedding of
the Go any parameter carrying one of the five pmetric aggregation shapes. -/
inductive MetricsData where
  | sum (s : Sum)
  | gauge (g : Gauge)
  | histogram (h : Histogram)
  | expHistogram (e : ExpHistogram)
  | summary (s : Summary)
  deriving DecidableEq, Repr

/-- The ordinal the pmetric library assigns to cumulative temporality. -/
def aggregationTemporalityCumulative : Int := 2

/-- Modelled from the spec: the numeric coercion rule getValue, section 4.5
(its source file is not under src): read the field selected by the declared
value-type tag and emit a double-precision value. -/
def getValue (i : Int) (d : Rat) (t : NumberValueType) : Rat :=
  match t with
  | .intVal => (i : Rat)
  | .doubleVal => d
  | .emptyVal => 0

/-- Modelled from the spec: ExemplarFlattener, section 4.4 (the source file
defining convertExemplars is not under src). Flattens the exemplar list into
five index-aligned parallel arrays, returned in the order the Go call sites
destructure them: attrs, times, values, traceIDs, spanIDs. -/
def convertExemplars (es : List Exemplar) :
    List String × List Nat × List Rat × List String × List String :=
  (es.map (fun e => AttributesToJSON e.filteredAttributes),
   es.map Exemplar.timeUnix,
   es.map Exemplar.value,
   es.map (fun e => TraceIDToHexOrEmptyString e.traceID),
   es.map (fun e => SpanIDToHexOrEmptyString e.spanID))

/-- Modelled from the spec: convertSliceToArraySet (its source file is not
under src) wraps a primitive slice for array binding; value-preserving. -/
def convertSliceToArraySetN (xs : List Nat) : List Nat := xs

/-- Modelled from the spec: convertSliceToArraySet on float slices. -/
def convertSliceToArraySetF (xs : List Rat) : List Rat := xs

/-- Modelled from the spec: convertValueAtQuantile (its source file is not
under src) flattens quantile values into two index-aligned parallel arrays. -/
def convertValueAtQuantile (qs : List QuantileValue) : List Rat × List Rat :=
  (qs.map QuantileValue.quantile, qs.map QuantileValue.value)

/-! ## Per-kind accumulators, row builders, Add and insert (metrics) -/

/-- sumModel from the source. -/
structure sumModel where
  metricName : String
  metricDescription : String
  metricUnit : String
  metadata : MetricsMetaData
  sum : Sum
  deriving DecidableEq, Repr

/-- sumMetrics accumulator from the source. -/
structure sumMetrics where
  sumModel : List sumModel
  insertSQL : String
  count : Nat
  deriving DecidableEq, Repr

/-- Row built by one iteration of the sum insert loop: the ExecContext
argument list of sumMetrics.insert in source order. -/
def sumRowOf (model : sumModel) (dp : NumberDataPoint) : Row :=
  let resAttr := AttributesToJSON model.metadata.ResAttr
  let scopeAttr := AttributesToJSON model.metadata.ScopeInstr.attributes
  let serviceName := GetServiceName model.metadata.ResAttr
  match convertExemplars dp.exemplars with
  | (attrs, times, values, traceIDs, spanIDs) =>
    [Value.vStr resAttr,
     Value.vStr model.metadata.ResURL,
     Value.vStr model.metadata.ScopeInstr.name,
     Value.vStr model.metadata.ScopeInstr.version,
     Value.vStr scopeAttr,
     Value.vUInt model.metadata.ScopeInstr.droppedAttributesCount,
     Value.vStr model.metadata.ScopeURL,
     Value.vStr serviceName,
     Value.vStr model.metricName,
     Value.vStr model.metricDescription,
     Value.vStr model.metricUnit,
     Value.vStr (AttributesToJSON dp.attributes),
     Value.vTime dp.startTimestamp,
     Value.vTime dp.timestamp,
     Value.vFloat (getValue dp.intValue dp.doubleValue dp.valueType),
     Value.vUInt dp.flags,
     Value.vStrArr attrs,
     Value.vTimeArr times,
     Value.vFloatArr values,
     Value.vStrArr spanIDs,
     Value.vStrArr traceIDs,
     Value.vInt model.sum.aggregationTemporality,
     Value.vBool model.sum.isMonotonic]

/-- All rows of one sum push, in accumulation order. -/
def sumRows (s : sumMetrics) : List Row :=
  s.sumModel.flatMap (fun m => m.sum.dataPoints.map (sumRowOf m))

/-- sumMetrics.insert from the source: skip entirely when no rows were
accumulated, otherwise run the transactional row loop and wrap any failure. -/
def sumMetrics.insert (env : DBEnv) (s : sumMetrics) (db : DB) :
    Except String Unit × DB × List Op :=
  if s.count = 0 then (.ok (), db, [])
  else
    match doWithTx env db (metricsTxBody env (sumRows s)) with
    | (.error e, db2, ops) => (.error ("insert sum metrics fail:" ++ e), db2, ops)
    | (.ok _, db2, ops) => (.ok (), db2, ops)

/-- sumMetrics.Add from the source: runtime type check against Sum, then
append the model and bump the row count by the data-point count. -/
def sumMetrics.Add (s : sumMetrics) (resAttr : AttrMap) (resURL : String)
    (scopeInstr : InstrumentationScope) (scopeURL : String) (metrics : MetricsData)
    (name description unit : String) : sumMetrics × Option String :=
  match metrics with
  | .sum sum =>
    ({ s with
        count := s.count + sum.dataPoints.length,
        sumModel := s.sumModel ++
          [{ metricName := name, metricDescription := description, metricUnit := unit,
             metadata := { ResAttr := resAttr, ResURL := resURL, ScopeURL := scopeURL,
                           ScopeInstr := scopeInstr },
             sum := sum }] }, none)
  | _ => (s, some "metrics param is not type of Sum")

/-- gaugeModel from the source. -/
structure gaugeModel where
  metricName : String
  metricDescription : String
  metricUnit : String
  metadata : MetricsMetaData
  gauge : Gauge
  deriving DecidableEq, Repr

/-- gaugeMetrics accumulator from the source. -/
structure gaugeMetrics where
  gaugeModels : List gaugeModel
  insertSQL : String
  count : Nat
  deriving DecidableEq, Repr

/-- Row built by one iteration of the gauge insert loop. -/
def gaugeRowOf (model : gaugeModel) (dp : NumberDataPoint) : Row :=
  let resAttr := AttributesToJSON model.metadata.ResAttr
  let scopeAttr := AttributesToJSON model.metadata.ScopeInstr.attributes
  let serviceName := GetServiceName model.metadata.ResAttr
  match convertExemplars dp.exemplars with
  | (attrs, times, values, traceIDs, spanIDs) =>
    [Value.vStr resAttr,
     Value.vStr model.metadata.ResURL,
     Value.vStr model.metadata.ScopeInstr.name,
     Value.vStr model.metadata.ScopeInstr.version,
     Value.vStr scopeAttr,
     Value.vUInt model.metadata.ScopeInstr.droppedAttributesCount,
     Value.vStr model.metadata.ScopeURL,
     Value.vStr serviceName,
     Value.vStr model.metricName,
     Value.vStr model.metricDescription,
     Value.vStr model.metricUnit,
     Value.vStr (AttributesToJSON dp.attributes),
     Value.vTime dp.startTimestamp,
     Value.vTime dp.timestamp,
     Value.vFloat (getValue dp.intValue dp.doubleValue dp.valueType),
     Value.vUInt dp.flags,
     Value.vStrArr attrs,
     Value.vTimeArr times,
     Value.vFloatArr values,
     Value.vStrArr spanIDs,
     Value.vStrArr traceIDs]

/-- All rows of one gauge push, in accumulation order. -/
def gaugeRows (g : gaugeMetrics) : List Row :=
  g.gaugeModels.flatMap (fun m => m.gauge.dataPoints.map (gaugeRowOf m))

/-- gaugeMetrics.insert from the source. -/
def gaugeMetrics.insert (env : DBEnv) (g : gaugeMetrics) (db : DB) :
    Except String Unit × DB × List Op :=
  if g.count = 0 then (.ok (), db, [])
  else
    match doWithTx env db (metricsTxBody env (gaugeRows g)) with
    | (.error e, db2, ops) => (.error ("insert gauge metrics fail:" ++ e), db2, ops)
    | (.ok _, db2, ops) => (.ok (), db2, ops)

/-- gaugeMetrics.Add from the source. -/
def gaugeMetrics.Add (g : gaugeMetrics) (resAttr : AttrMap) (resURL : String)
    (scopeInstr : InstrumentationScope) (scopeURL : String) (metrics : MetricsData)
    (name description unit : String) : gaugeMetrics × Option String :=
  match metrics with
  | .gauge gauge =>
    ({ g with
        count := g.count + gauge.dataPoints.length,
        gaugeModels := g.gaugeModels ++
          [{ metricName := name, metricDescription := description, metricUnit := unit,
             metadata := { ResAttr := resAttr, ResURL := resURL, ScopeURL := scopeURL,
                           ScopeInstr := scopeInstr },
             gauge := gauge }] }, none)
  | _ => (g, some "metrics param is not type of Gauge")

/-- histogramModel from the source. -/
structure histogramModel where
  metricName : String
  metricDescription : String
  metricUnit : String
  metadata : MetricsMetaData
  histogram : Histogram
  deriving DecidableEq, Repr

/-- histogramMetrics accumulator from the source. -/
structure histogramMetrics where
  histogramModel : List histogramModel
  insertSQL : String
  count : Nat
  deriving DecidableEq, Repr

/-- Row built by one iteration of the histogram insert loop. -/
def histogramRowOf (model : histogramModel) (dp : HistogramDataPoint) : Row :=
  let resAttr := AttributesToJSON model.metadata.ResAttr
  let scopeAttr := AttributesToJSON model.metadata.ScopeInstr.attributes
  let serviceName := GetServiceName model.metadata.ResAttr
  match convertExemplars dp.exemplars with
  | (attrs, times, values, traceIDs, spanIDs) =>
    [Value.vStr resAttr,
     Value.vStr model.metadata.ResURL,
     Value.vStr model.metadata.ScopeInstr.name,
     Value.vStr model.metadata.ScopeInstr.version,
     Value.vStr scopeAttr,
     Value.vUInt model.metadata.ScopeInstr.droppedAttributesCount,
     Value.vStr model.metadata.ScopeURL,
     Value.vStr serviceName,
     Value.vStr model.metricName,
     Value.vStr model.metricDescription,
     Value.vStr model.metricUnit,
     Value.vStr (AttributesToJSON dp.attributes),
     Value.vTime dp.startTimestamp,
     Value.vTime dp.timestamp,
     Value.vUInt dp.count,
     Value.vFloat dp.sum,
     Value.vUIntArr (convertSliceToArraySetN dp.bucketCounts),
     Value.vFloatArr (convertSliceToArraySetF dp.explicitBounds),
     Value.vStrArr attrs,
     Value.vTimeArr times,
     Value.vFloatArr values,
     Value.vStrArr spanIDs,
     Value.vStrArr traceIDs,
     Value.vUInt dp.flags,
     Value.vFloat dp.min,
     Value.vFloat dp.max,
     Value.vInt model.histogram.aggregationTemporality]

/-- All rows of one histogram push, in accumulation order. -/
def histogramRows (h : histogramMetrics) : List Row :=
  h.histogramModel.flatMap (fun m => m.histogram.dataPoints.map (histogramRowOf m))

/-- histogramMetrics.insert from the source. -/
def histogramMetrics.insert (env : DBEnv) (h : histogramMetrics) (db : DB) :
    Except String Unit × DB × List Op :=
  if h.count = 0 then (.ok (), db, [])
  else
    match doWithTx env db (metricsTxBody env (histogramRows h)) with
    | (.error e, db2, ops) => (.error ("insert histogram metrics fail:" ++ e), db2, ops)
    | (.ok _, db2, ops) => (.ok (), db2, ops)

/-- histogramMetrics.Add from the source. -/
def histogramMetrics.Add (h : histogramMetrics) (resAttr : AttrMap) (resURL : String)
    (scopeInstr : InstrumentationScope) (scopeURL : String) (metrics : MetricsData)
    (name description unit : String) : histogramMetrics × Option String :=
  match metrics with
  | .histogram histogram =>
    ({ h with
        count := h.count + histogram.dataPoints.length,
        histogramModel := h.histogramModel ++
          [{ metricName := name, metricDescription := description, metricUnit := unit,
             metadata := { ResAttr := resAttr, ResURL := resURL, ScopeURL := scopeURL,
                           ScopeInstr := scopeInstr },
             histogram := histogram }] }, none)
  | _ => (h, some "metrics param is not type of Histogram")

/-- expHistogramModel from the source. -/
structure expHistogramModel where
  metricName : String
  metricDescription : String
  metricUnit : String
  metadata : MetricsMetaData
  expHistogram : ExpHistogram
  deriving DecidableEq, Repr

/-- expHistogramMetrics accumulator from the source. -/
structure expHistogramMetrics where
  expHistogramModels : List expHistogramModel
  insertSQL : String
  count : Nat
  deriving DecidableEq, Repr

/-- Row built by one iteration of the exponential histogram insert loop. -/
def expHistogramRowOf (model : expHistogramModel) (dp : ExpHistogramDataPoint) : Row :=
  let resAttr := AttributesToJSON model.metadata.ResAttr
  let scopeAttr := AttributesToJSON model.metadata.ScopeInstr.attributes
  let serviceName := GetServiceName model.metadata.ResAttr
  match convertExemplars dp.exemplars with
  | (attrs, times, values, traceIDs, spanIDs) =>
    [Value.vStr resAttr,
     Value.vStr model.metadata.ResURL,
     Value.vStr model.metadata.ScopeInstr.name,
     Value.vStr model.metadata.ScopeInstr.version,
     Value.vStr scopeAttr,
     Value.vUInt model.metadata.ScopeInstr.droppedAttributesCount,
     Value.vStr model.metadata.ScopeURL,
     Value.vStr serviceName,
     Value.vStr model.metricName,
     Value.vStr model.metricDescription,
     Value.vStr model.metricUnit,
     Value.vStr (AttributesToJSON dp.attributes),
     Value.vTime dp.startTimestamp,
     Value.vTime dp.timestamp,
     Value.vUInt dp.count,
     Value.vFloat dp.sum,
     Value.vInt dp.scale,
     Value.vUInt dp.zeroCount,
     Value.vInt dp.positive.offset,
     Value.vUIntArr (convertSliceToArraySetN dp.positive.bucketCounts),
     Value.vInt dp.negative.offset,
     Value.vUIntArr (convertSliceToArraySetN dp.negative.bucketCounts),
     Value.vStrArr attrs,
     Value.vTimeArr times,
     Value.vFloatArr values,
     Value.vStrArr spanIDs,
     Value.vStrArr traceIDs,
     Value.vUInt dp.flags,
     Value.vFloat dp.min,
     Value.vFloat dp.max,
     Value.vInt model.expHistogram.aggregationTemporality]

/-- All rows of one exponential histogram push, in accumulation order. -/
def expHistogramRows (e : expHistogramMetrics) : List Row :=
  e.expHistogramModels.flatMap (fun m => m.expHistogram.dataPoints.map (expHistogramRowOf m))

/-- expHistogramMetrics.insert from the source. -/
def expHistogramMetrics.insert (env : DBEnv) (e : expHistogramMetrics) (db : DB) :
    Except String Unit × DB × List Op :=
  if e.count = 0 then (.ok (), db, [])
  else
    match doWithTx env db (metricsTxBody env (expHistogramRows e)) with
    | (.error er, db2, ops) =>
      (.error ("insert exponential histogram metrics fail:" ++ er), db2, ops)
    | (.ok _, db2, ops) => (.ok (), db2, ops)

/-- expHistogramMetrics.Add from the source. -/
def expHistogramMetrics.Add (eh : expHistogramMetrics) (resAttr : AttrMap) (resURL : String)
    (scopeInstr : InstrumentationScope) (scopeURL : String) (metrics : MetricsData)
    (name description unit : String) : expHistogramMetrics × Option String :=
  match metrics with
  | .expHistogram expHistogram =>
    ({ eh with
        count := eh.count + expHistogram.dataPoints.length,
        expHistogramModels := eh.expHistogramModels ++
          [{ metricName := name, metricDescription := description, metricUnit := unit,
             metadata := { ResAttr := resAttr, ResURL := resURL, ScopeURL := scopeURL,
                           ScopeInstr := scopeInstr },
             expHistogram := expHistogram }] }, none)
  | _ => (eh, some "metrics param is not type of ExponentialHistogram")

/-- summaryModel from the source. -/
structure summaryModel where
  metricName : String
  metricDescription : String
  metricUnit : String
  metadata : MetricsMetaData
  summary : Summary
  deriving DecidableEq, Repr

/-- summaryMetrics accumulator from the source. -/
structure summaryMetrics where
  summaryModel : List summaryModel
  insertSQL : String
  count : Nat
  deriving DecidableEq, Repr

/-- Row built by one iteration of the summary insert loop. -/
def summaryRowOf (model : summaryModel) (dp : SummaryDataPoint) : Row :=
  let resAttr := AttributesToJSON model.metadata.ResAttr
  let scopeAttr := AttributesToJSON model.metadata.ScopeInstr.attributes
  let serviceName := GetServiceName model.metadata.ResAttr
  match convertValueAtQuantile dp.quantileValues with
  | (quantiles, values) =>
    [Value.vStr resAttr,
     Value.vStr model.metadata.ResURL,
     Value.vStr model.metadata.ScopeInstr.name,
     Value.vStr model.metadata.ScopeInstr.version,
     Value.vStr scopeAttr,
     Value.vUInt model.metadata.ScopeInstr.droppedAttributesCount,
     Value.vStr model.metadata.ScopeURL,
     Value.vStr serviceName,
     Value.vStr model.metricName,
     Value.vStr model.metricDescription,
     Value.vStr model.metricUnit,
     Value.vStr (AttributesToJSON dp.attributes),
     Value.vTime dp.startTimestamp,
     Value.vTime dp.timestamp,
     Value.vUInt dp.count,
     Value.vFloat dp.sum,
     Value.vFloatArr quantiles,
     Value.vFloatArr values,
     Value.vUInt dp.flags]

/-- All rows of one summary push, in accumulation order. -/
def summaryRows (s : summaryMetrics) : List Row :=
  s.summaryModel.flatMap (fun m => m.summary.dataPoints.map (summaryRowOf m))

/-- summaryMetrics.insert from the source. -/
def summaryMetrics.insert (env : DBEnv) (s : summaryMetrics) (db : DB) :
    Except String Unit × DB × List Op :=
  if s.count = 0 then (.ok (), db, [])
  else
    match doWithTx env db (metricsTxBody env (summaryRows s)) with
    | (.error e, db2, ops) => (.error ("insert summary metrics fail:" ++ e), db2, ops)
    | (.ok _, db2, ops) => (.ok (), db2, ops)

/-- summaryMetrics.Add from the source. -/
def summaryMetrics.Add (s : summaryMetrics) (resAttr : AttrMap) (resURL : String)
    (scopeInstr : InstrumentationScope) (scopeURL : String) (metrics : MetricsData)
    (name description unit : String) : summaryMetrics × Option String :=
  match metrics with
  | .summary summary =>
    ({ s with
        count := s.count + summary.dataPoints.length,
        summaryModel := s.summaryModel ++
          [{ metricName := name, metricDescription := description, metricUnit := unit,
             metadata := { ResAttr := resAttr, ResURL := resURL, ScopeURL := scopeURL,
                           ScopeInstr := scopeInstr },
             summary := summary }] }, none)
  | _ => (s, some "metrics param is not type of Summary")

/-! ## Traces exporter (src/exporter/clickhouse/exporter_traces.go) -/

/-- One span event. -/
structure SpanEvent where
  timestamp : Nat
  name : String
  attributes : AttrMap
  deriving DecidableEq, Repr

/-- One span link. -/
structure SpanLink where
  traceID : List Nat
  spanID : List Nat
  traceState : String
  attributes : AttrMap
  deriving DecidableEq, Repr

/-- One span; kind and status code are embedded as the strings returned by the
pdata String conversions the source calls. -/
structure Span where
  startTimestamp : Nat
  endTimestamp : Nat
  traceID : List Nat
  spanID : List Nat
  parentSpanID : List Nat
  traceState : String
  name : String
  kindStr : String
  statusCodeStr : String
  statusMessage : String
  attributes : AttrMap
  events : List SpanEvent
  links : List SpanLink
  deriving DecidableEq, Repr

/-- One scope-spans group. -/
structure ScopeSpans where
  scope : InstrumentationScope
  spans : List Span
  deriving DecidableEq, Repr

/-- One resource-spans group. -/
structure ResourceSpans where
  resource : AttrMap
  scopeSpans : List ScopeSpans
  deriving DecidableEq, Repr

/-- convertEvents from the source: three index-aligned arrays built in event
order (timestamps, names, attribute JSON blobs). -/
def convertEvents : List SpanEvent → List Nat × List String × List String
  | [] => ([], [], [])
  | e :: es =>
    match convertEvents es with
    | (ts, ns, ats) => (e.timestamp :: ts, e.name :: ns, AttributesToJSON e.attributes :: ats)

/-- convertLinks from the source: four index-aligned arrays built in link
order (trace ids, span ids, trace states, attribute JSON blobs). -/
def convertLinks : List SpanLink → List String × List String × List String × List String
  | [] => ([], [], [], [])
  | l :: ls =>
    match convertLinks ls with
    | (tids, sids, sts, ats) =>
      (TraceIDToHexOrEmptyString l.traceID :: tids,
       SpanIDToHexOrEmptyString l.spanID :: sids,
       l.traceState :: sts,
       AttributesToJSON l.attributes :: ats)

/-- Row built by one iteration of the pushTraceData loop: the ExecContext
argument list in source order; the Duration argument is the signed
nanosecond difference end minus start. -/
def traceRowOf (serviceName resAttr scopeName scopeVersion : String) (r : Span) : Row :=
  let spanAttr := AttributesToJSON r.attributes
  match convertEvents r.events, convertLinks r.links with
  | (eventTimes, eventNames, eventAttrs),
    (linksTraceIDs, linksSpanIDs, linksTraceStates, linksAttrs) =>
    [Value.vTime r.startTimestamp,
     Value.vStr (TraceIDToHexOrEmptyString r.traceID),
     Value.vStr (SpanIDToHexOrEmptyString r.spanID),
     Value.vStr (SpanIDToHexOrEmptyString r.parentSpanID),
     Value.vStr r.traceState,
     Value.vStr r.name,
     Value.vStr r.kindStr,
     Value.vStr serviceName,
     Value.vStr resAttr,
     Value.vStr scopeName,
     Value.vStr scopeVersion,
     Value.vStr spanAttr,
     Value.vInt ((r.endTimestamp : Int) - (r.startTimestamp : Int)),
     Value.vStr r.statusCodeStr,
     Value.vStr r.statusMessage,
     Value.vTimeArr eventTimes,
     Value.vStrArr eventNames,
     Value.vStrArr eventAttrs,
     Value.vStrArr linksTraceIDs,
     Value.vStrArr linksSpanIDs,
     Value.vStrArr linksTraceStates,
     Value.vStrArr linksAttrs]

/-- All rows of one trace push, in tree-walk order. -/
def traceRows (td : List ResourceSpans) : List Row :=
  td.flatMap (fun rs =>
    let resAttr := AttributesToJSON rs.resource
    let serviceName := GetServiceName rs.resource
    rs.scopeSpans.flatMap (fun ss =>
      ss.spans.map (traceRowOf serviceName resAttr ss.scope.name ss.scope.version)))

/-- pushTraceData from the source: one transaction for the whole push. -/
def pushTraceData (env : DBEnv) (td : List ResourceSpans) (db : DB) :
    Except String Unit × DB × List Op :=
  doWithTx env db (pushTxBody env (traceRows td))

/-! ## Logs exporter (src/unnamed/part_000) -/

/-- One log record. -/
structure LogRecord where
  timestamp : Nat
  observedTimestamp : Nat
  traceID : List Nat
  spanID : List Nat
  flags : Nat
  severityText : String
  severityNumber : Int
  body : String
  attributes : AttrMap
  deriving DecidableEq, Repr

/-- One scope-logs group. -/
structure ScopeLogs where
  scope : InstrumentationScope
  schemaUrl : String
  logRecords : List LogRecord
  deriving DecidableEq, Repr

/-- One resource-logs group. -/
structure ResourceLogs where
  resource : AttrMap
  schemaUrl : String
  scopeLogs : List ScopeLogs
  deriving DecidableEq, Repr

/-- Row built by one iteration of the pushLogsData loop, including the
fallback of the primary timestamp to the observed timestamp when zero. -/
def logRowOf (serviceName resAttr resURL scopeURL scopeName scopeVersion scopeAttr : String)
    (r : LogRecord) : Row :=
  let timestamp := if r.timestamp = 0 then r.observedTimestamp else r.timestamp
  let logAttr := AttributesToJSON r.attributes
  [Value.vTime timestamp,
   Value.vStr (TraceIDToHexOrEmptyString r.traceID),
   Value.vStr (SpanIDToHexOrEmptyString r.spanID),
   Value.vUInt r.flags,
   Value.vStr r.severityText,
   Value.vInt r.severityNumber,
   Value.vStr serviceName,
   Value.vStr r.body,
   Value.vStr resURL,
   Value.vStr resAttr,
   Value.vStr scopeURL,
   Value.vStr scopeName,
   Value.vStr scopeVersion,
   Value.vStr scopeAttr,
   Value.vStr logAttr]

/-- All rows of one logs push, in tree-walk order. -/
def logRows (ld : List ResourceLogs) : List Row :=
  ld.flatMap (fun rl =>
    let resAttr := AttributesToJSON rl.resource
    let serviceName := GetServiceName rl.resource
    rl.scopeLogs.flatMap (fun sl =>
      sl.logRecords.map
        (logRowOf serviceName resAttr rl.schemaUrl sl.schemaUrl sl.scope.name
          sl.scope.version (AttributesToJSON sl.scope.attributes))))

/-- pushLogsData from the source: one transaction for the whole push. -/
def pushLogsData (env : DBEnv) (ld : List ResourceLogs) (db : DB) :
    Except String Unit × DB × List Op :=
  doWithTx env db (pushTxBody env (logRows ld))

/-! ## Schema rendering and the trace-id time-range materialized view -/

/-- The configuration fields the traces DDL renderers read. -/
structure Config where
  TracesTableName : String
  Database : String
  clusterStr : String
  deriving DecidableEq, Repr

/-- Sequential %s substitution, the behaviour of fmt.Sprintf on the DDL
templates (which contain only %s verbs). -/
def fmtS : List Char → List String → List Char
  | [], _ => []
  | '%' :: 's' :: rest, a :: args => a.data ++ fmtS rest args
  | '%' :: 's' :: rest, [] => '%' :: 's' :: fmtS rest []
  | c :: rest, args => c :: fmtS rest args

/-- renderTraceIDTsMaterializedViewSQL from the source: substitute the table
name, cluster clause and database into the materialized view template. -/
def renderTraceIDTsMaterializedViewSQL (cfg : Config) : String :=
  String.mk (fmtS createTraceIDTsMaterializedViewSQL.data
    [cfg.TracesTableName, cfg.clusterStr, cfg.Database, cfg.TracesTableName,
     cfg.Database, cfg.TracesTableName])

/-- The WHERE filter of the materialized view, as written in the template. -/
def mvWhereClause : String := "WHERE TraceId != ''"

/-- Minimum of a timestamp list (0 when empty; the view only aggregates
nonempty groups). -/
def natsMin (l : List Nat) : Nat := l.foldl Nat.min (l.headD 0)

/-- Maximum of a timestamp list. -/
def natsMax (l : List Nat) : Nat := l.foldl Nat.max (l.headD 0)

/-- TraceId and Timestamp of each committed spans-table row: the two source
columns the materialized view reads. -/
def traceIdTsSource (db : DB) : List (String × Nat) :=
  db.committed.filterMap (fun row =>
    match row with
    | Value.vTime t :: Value.vStr tid :: _ => some (tid, t)
    | _ => none)

/-- Meaning of the materialized view SELECT: group the spans rows by TraceId,
keeping only rows whose TraceId is nonempty, and aggregate min and max
Timestamp per group. -/
def mvSelect (rows : List (String × Nat)) : List (String × Nat × Nat) :=
  let src := rows.filter (fun r => r.1 != "")
  let keys := (src.map Prod.fst).dedup
  keys.map (fun k =>
    let ts := (src.filter (fun r => r.1 == k)).map Prod.snd
    (k, natsMin ts, natsMax ts))

/-! ## Supporting lemmas -/

/-- Each hex digit of a nibble lies in the lowercase hex alphabet. -/
lemma hexDigit_mem (n : Nat) (h : n < 16) : hexDigit n ∈ hexAlphabet := by
  interval_cases n <;> decide

/-- The hex encoding of a byte sequence has twice as many characters. -/
lemma hexEncode_length (bs : List Nat) :
    ((bs.map hexEncodeByte).flatten).length = 2 * bs.length := by
  induction bs with
  | nil => simp
  | cons b bs ih => simp [hexEncodeByte, ih]; omega

/-- Every character of the hex encoding of a byte sequence is a lowercase
hex digit. -/
lemma hexEncode_chars (bs : List Nat) (hb : ∀ b ∈ bs, b < 256) :
    ∀ c ∈ (bs.map hexEncodeByte).flatten, c ∈ hexAlphabet := by
  intro c hc
  rw [List.mem_flatten] at hc
  obtain ⟨l, hl, hcl⟩ := hc
  rw [List.mem_map] at hl
  obtain ⟨b, hbmem, rfl⟩ := hl
  have hblt := hb b hbmem
  simp only [hexEncodeByte, List.mem_cons, List.mem_singleton] at hcl
  rcases hcl with rfl | rfl | h
  · exact hexDigit_mem _ (by omega)
  · exact hexDigit_mem _ (Nat.mod_lt _ (by omega))
  · cases h

/-- convertEvents is the triple of per-field projections in event order. -/
lemma convertEvents_eq (es : List SpanEvent) :
    convertEvents es
      = (es.map SpanEvent.timestamp, es.map SpanEvent.name,
         es.map (fun e => AttributesToJSON e.attributes)) := by
  induction es with
  | nil => rfl
  | cons e es ih => simp [convertEvents, ih]

/-- convertLinks is the quadruple of per-field projections in link order. -/
lemma convertLinks_eq (ls : List SpanLink) :
    convertLinks ls
      = (ls.map (fun l => TraceIDToHexOrEmptyString l.traceID),
         ls.map (fun l => SpanIDToHexOrEmptyString l.spanID),
         ls.map SpanLink.traceState,
         ls.map (fun l => AttributesToJSON l.attributes)) := by
  induction ls with
  | nil => rfl
  | cons l ls ih => simp [convertLinks, ih]

/-! ## Claim theorems -/

/-- C5: for every 8-byte span id and 16-byte trace id, the codec returns the
empty string exactly on the all-zero identifier and otherwise a lowercase hex
string of twice the byte length (16 or 32 characters); both functions are
total. -/
theorem idCodec_hex_or_empty (span trace : List Nat)
    (h8 : span.length = 8) (h16 : trace.length = 16)
    (hs : ∀ b ∈ span, b < 256) (ht : ∀ b ∈ trace, b < 256) :
    (isEmptyID span = true → SpanIDToHexOrEmptyString span = "")
  ∧ (isEmptyID span = false →
      (SpanIDToHexOrEmptyString span).length = 16
      ∧ ∀ c ∈ (SpanIDToHexOrEmptyString span).data, c ∈ hexAlphabet)
  ∧ (isEmptyID trace = true → TraceIDToHexOrEmptyString trace = "")
  ∧ (isEmptyID trace = false →
      (TraceIDToHexOrEmptyString trace).length = 32
      ∧ ∀ c ∈ (TraceIDToHexOrEmptyString trace).data, c ∈ hexAlphabet) := by
  refine ⟨fun h => ?_, fun h => ⟨?_, ?_⟩, fun h => ?_, fun h => ⟨?_, ?_⟩⟩
  · simp [SpanIDToHexOrEmptyString, h]
  · rw [SpanIDToHexOrEmptyString, if_neg (by simp [h]), hexEncodeToString]
    show ((span.map hexEncodeByte).flatten).length = 16
    rw [hexEncode_length, h8]
  · simpa [SpanIDToHexOrEmptyString, h, hexEncodeToString] using hexEncode_chars span hs
  · simp [TraceIDToHexOrEmptyString, h]
  · rw [TraceIDToHexOrEmptyString, if_neg (by simp [h]), hexEncodeToString]
    show ((trace.map hexEncodeByte).flatten).length = 32
    rw [hexEncode_length, h16]
  · simpa [TraceIDToHexOrEmptyString, h, hexEncodeToString] using hexEncode_chars trace ht

/-- C5 witness: a concrete nonzero span id and the all-zero trace id. -/
theorem idCodec_hex_or_empty_witness :
    (SpanIDToHexOrEmptyString (List.replicate 7 0 ++ [1])).length = 16
  ∧ TraceIDToHexOrEmptyString (List.replicate 16 0) = "" := by
  have h := idCodec_hex_or_empty (List.replicate 7 0 ++ [1]) (List.replicate 16 0)
    (by decide) (by decide) (by decide) (by decide)
  exact ⟨(h.2.1 (by decide)).1, h.2.2.1 (by decide)⟩

/-- C7: convertEvents returns three arrays of the event count whose i-th
entries are the fields of the i-th event in input order; convertLinks returns
four such arrays for links; empty input yields empty arrays. -/
theorem convert_events_links_aligned :
    (∀ es : List SpanEvent,
        (convertEvents es).1.length = es.length
      ∧ (convertEvents es).2.1.length = es.length
      ∧ (convertEvents es).2.2.length = es.length
      ∧ (∀ i : Nat,
            (convertEvents es).1.get? i = (es.get? i).map SpanEvent.timestamp
          ∧ (convertEvents es).2.1.get? i = (es.get? i).map SpanEvent.name
          ∧ (convertEvents es).2.2.get? i
              = (es.get? i).map (fun e => AttributesToJSON e.attributes)))
  ∧ (∀ ls : List SpanLink,
        (convertLinks ls).1.length = ls.length
      ∧ (convertLinks ls).2.1.length = ls.length
      ∧ (convertLinks ls).2.2.1.length = ls.length
      ∧ (convertLinks ls).2.2.2.length = ls.length
      ∧ (∀ i : Nat,
            (convertLinks ls).1.get? i
              = (ls.get? i).map (fun l => TraceIDToHexOrEmptyString l.traceID)
          ∧ (convertLinks ls).2.1.get? i
              = (ls.get? i).map (fun l => SpanIDToHexOrEmptyString l.spanID)
          ∧ (convertLinks ls).2.2.1.get? i = (ls.get? i).map SpanLink.traceState
          ∧ (convertLinks ls).2.2.2.get? i
              = (ls.get? i).map (fun l => AttributesToJSON l.attributes)))
  ∧ convertEvents [] = ([], [], [])
  ∧ convertLinks [] = ([], [], [], []) := by
  refine ⟨fun es => ?_, fun ls => ?_, rfl, rfl⟩ <;>
    simp [convertEvents_eq, convertLinks_eq, List.get?_map]

/-- C6: the Timestamp column of an emitted log row is the primary record
timestamp when nonzero and the observed timestamp when the primary timestamp
is zero; no other fallback exists. -/
theorem logs_timestamp_fallback
    (serviceName resAttr resURL scopeURL scopeName scopeVersion scopeAttr : String)
    (r : LogRecord) :
    (r.timestamp ≠ 0 →
      (logRowOf serviceName resAttr resURL scopeURL scopeName scopeVersion scopeAttr r).head?
        = some (Value.vTime r.timestamp))
  ∧ (r.timestamp = 0 →
      (logRowOf serviceName resAttr resURL scopeURL scopeName scopeVersion scopeAttr r).head?
        = some (Value.vTime r.observedTimestamp)) := by
  constructor <;> intro h <;> simp [logRowOf, h]

/-- C6 witness: a record with zero primary timestamp falls back to the
observed timestamp, one with a nonzero primary timestamp keeps it. -/
theorem logs_timestamp_fallback_witness :
    (logRowOf "svc" "" "" "" "" "" "" ⟨0, 7, [], [], 0, "", 0, "", []⟩).head?
      = some (Value.vTime 7)
  ∧ (logRowOf "svc" "" "" "" "" "" "" ⟨5, 7, [], [], 0, "", 0, "", []⟩).head?
      = some (Value.vTime 5) := by
  exact ⟨(logs_timestamp_fallback "svc" "" "" "" "" "" "" ⟨0, 7, [], [], 0, "", 0, "", []⟩).2 rfl,
         (logs_timestamp_fallback "svc" "" "" "" "" "" "" ⟨5, 7, [], [], 0, "", 0, "", []⟩).1 (by decide)⟩

/-- Spec-side column contract for one sum row (section 4.5 of the spec): each
column name of the sum table paired with the field the specification assigns
to it. Used to check that the insert routine binds its arguments in exactly
this column order. -/
def sumRowSpec (m : sumModel) (dp : NumberDataPoint) : List (String × Value) :=
  [("ResourceAttributes", Value.vStr (AttributesToJSON m.metadata.ResAttr)),
   ("ResourceSchemaUrl", Value.vStr m.metadata.ResURL),
   ("ScopeName", Value.vStr m.metadata.ScopeInstr.name),
   ("ScopeVersion", Value.vStr m.metadata.ScopeInstr.version),
   ("ScopeAttributes", Value.vStr (AttributesToJSON m.metadata.ScopeInstr.attributes)),
   ("ScopeDroppedAttrCount", Value.vUInt m.metadata.ScopeInstr.droppedAttributesCount),
   ("ScopeSchemaUrl", Value.vStr m.metadata.ScopeURL),
   ("ServiceName", Value.vStr (GetServiceName m.metadata.ResAttr)),
   ("MetricName", Value.vStr m.metricName),
   ("MetricDescription", Value.vStr m.metricDescription),
   ("MetricUnit", Value.vStr m.metricUnit),
   ("Attributes", Value.vStr (AttributesToJSON dp.attributes)),
   ("StartTimeUnix", Value.vTime dp.startTimestamp),
   ("TimeUnix", Value.vTime dp.timestamp),
   ("Value", Value.vFloat (getValue dp.intValue dp.doubleValue dp.valueType)),
   ("Flags", Value.vUInt dp.flags),
   ("Exemplars.FilteredAttributes",
     Value.vStrArr (dp.exemplars.map (fun e => AttributesToJSON e.filteredAttributes))),
   ("Exemplars.TimeUnix", Value.vTimeArr (dp.exemplars.map Exemplar.timeUnix)),
   ("Exemplars.Value", Value.vFloatArr (dp.exemplars.map Exemplar.value)),
   ("Exemplars.SpanId",
     Value.vStrArr (dp.exemplars.map (fun e => SpanIDToHexOrEmptyString e.spanID))),
   ("Exemplars.TraceId",
     Value.vStrArr (dp.exemplars.map (fun e => TraceIDToHexOrEmptyString e.traceID))),
   ("AggregationTemporality", Value.vInt m.sum.aggregationTemporality),
   ("IsMonotonic", Value.vBool m.sum.isMonotonic)]

/-- C1 (counterexample): for the logs signal kind the INSERT placeholder list
does not match the CREATE TABLE column list: the table declares the derived
DEFAULT column TimestampTime in second position, which the INSERT omits. -/
theorem insert_matches_create_counterexample :
    parseInsertColumns insertLogsSQLTemplate ≠ parseCreateColumns createLogsTableSQL
  ∧ (parseCreateColumns createLogsTableSQL).get? 1 = some "TimestampTime"
  ∧ (parseInsertColumns insertLogsSQLTemplate).get? 1 = some "TraceId"
  ∧ (parseCreateColumns createLogsTableSQL).length = 16
  ∧ (parseInsertColumns insertLogsSQLTemplate).length = 15 := by decide

/-- C1 (amended): for six of the seven signal kinds the INSERT placeholder
list matches the CREATE TABLE column list name-for-name and
position-for-position; for logs it matches the CREATE list with the derived
DEFAULT column TimestampTime removed; for every kind the number of ?
placeholders equals the INSERT column count; and the 23 arguments bound per
sum row correspond positionally to the 23 columns ResourceAttributes through
IsMonotonic. -/
theorem insert_matches_create_amended :
    (∀ (m : sumModel) (dp : NumberDataPoint),
      (parseInsertColumns insertSumTableSQL).zip (sumRowOf m dp) = sumRowSpec m dp)
  ∧ parseInsertColumns insertSumTableSQL = parseCreateColumns createSumTableSQL
  ∧ parseInsertColumns insertGaugeTableSQL = parseCreateColumns createGaugeTableSQL
  ∧ parseInsertColumns insertHistogramTableSQL = parseCreateColumns createHistogramTableSQL
  ∧ parseInsertColumns insertExpHistogramTableSQL = parseCreateColumns createExpHistogramTableSQL
  ∧ parseInsertColumns insertSummaryTableSQL = parseCreateColumns createSummaryTableSQL
  ∧ parseInsertColumns insertTracesSQLTemplate = parseCreateColumns createTracesTableSQL
  ∧ parseInsertColumns insertLogsSQLTemplate
      = (parseCreateColumns createLogsTableSQL).erase "TimestampTime"
  ∧ countPlaceholders insertSumTableSQL = (parseInsertColumns insertSumTableSQL).length
  ∧ countPlaceholders insertGaugeTableSQL = (parseInsertColumns insertGaugeTableSQL).length
  ∧ countPlaceholders insertHistogramTableSQL
      = (parseInsertColumns insertHistogramTableSQL).length
  ∧ countPlaceholders insertExpHistogramTableSQL
      = (parseInsertColumns insertExpHistogramTableSQL).length
  ∧ countPlaceholders insertSummaryTableSQL = (parseInsertColumns insertSummaryTableSQL).length
  ∧ countPlaceholders insertTracesSQLTemplate = (parseInsertColumns insertTracesSQLTemplate).length
  ∧ countPlaceholders insertLogsSQLTemplate = (parseInsertColumns insertLogsSQLTemplate).length
  ∧ (parseInsertColumns insertSumTableSQL).length = 23
  ∧ (parseInsertColumns insertSumTableSQL).head? = some "ResourceAttributes"
  ∧ (parseInsertColumns insertSumTableSQL).getLast? = some "IsMonotonic" :=
  ⟨fun m dp => rfl, by decide⟩

/-- A small concrete scope used by witnesses. -/
def wScope : InstrumentationScope := ⟨"scope", "v1", [], 0⟩

/-- A concrete number data point used by witnesses. -/
def wDp : NumberDataPoint := ⟨[], 1, 2, 0, 5, .doubleVal, 0, []⟩

/-- A concrete sum used by witnesses. -/
def wSum : Sum := ⟨[wDp], 1, false⟩

/-- A concrete sum model used by witnesses. -/
def wSumModel : sumModel := ⟨"m", "", "", ⟨[("service.name", "svc")], "", "", wScope⟩, wSum⟩

/-- A one-row sum accumulator used by witnesses. -/
def wSumState : sumMetrics := ⟨[wSumModel], insertSumTableSQL, 1⟩

/-- An environment whose every row execution fails. -/
def envFail : DBEnv := ⟨none, none, none, fun _ => some "boom"⟩

/-- An environment in which every store call succeeds. -/
def envOk : DBEnv := ⟨none, none, none, fun _ => none⟩

/-- When every row executes cleanly the loop appends all rows to the
transaction buffer in order and issues one exec per row. -/
lemma execLoop_all_ok (env : DBEnv) (rows : List Row) :
    ∀ tx, (∀ r ∈ rows, env.execErr r = none) →
      execLoop env rows tx = (.ok (tx ++ rows), rows.map Op.exec) := by
  induction rows with
  | nil => intro tx _; simp [execLoop]
  | cons r rs ih =>
    intro tx h
    have hr : env.execErr r = none := h r (by simp)
    have hrs : ∀ x ∈ rs, env.execErr x = none := fun x hx => h x (by simp [hx])
    simp [execLoop, hr, ih (tx ++ [r]) hrs]

/-- If some row fails, the loop returns an error. -/
lemma execLoop_err (env : DBEnv) (rows : List Row) :
    ∀ tx, (∃ r ∈ rows, env.execErr r ≠ none) →
      ∃ e, (execLoop env rows tx).1 = .error e := by
  induction rows with
  | nil => simp
  | cons r rs ih =>
    intro tx h
    cases hr : env.execErr r with
    | some e => exact ⟨"ExecContext:" ++ e, by simp [execLoop, hr]⟩
    | none =>
      obtain ⟨x, hx, hxe⟩ := h
      rcases List.mem_cons.mp hx with rfl | hx
      · exact absurd hr hxe
      · obtain ⟨e, he⟩ := ih (tx ++ [r]) ⟨x, hx, hxe⟩
        refine ⟨e, ?_⟩
        rcases hE : execLoop env rs (tx ++ [r]) with ⟨res, ops2⟩
        rw [hE] at he
        simp [execLoop, hr, hE]
        simpa using he

/-- If the loop succeeds, every row executed without error. -/
lemma execLoop_ok_all (env : DBEnv) (rows : List Row) (tx tx2 : Tx)
    (h : (execLoop env rows tx).1 = .ok tx2) : ∀ r ∈ rows, env.execErr r = none := by
  intro r hr
  by_contra hne
  obtain ⟨e, he⟩ := execLoop_err env rows tx ⟨r, hr, hne⟩
  rw [h] at he
  exact Except.noConfusion he

/-- On every error outcome doWithTx leaves the store unchanged. -/
lemma doWithTx_error_frame (env : DBEnv) (db : DB)
    (fn : Tx → Except String Tx × List Op) (e : String)
    (h : (doWithTx env db fn).1 = .error e) : (doWithTx env db fn).2.1 = db := by
  cases hb : env.beginErr with
  | some e2 => simp [doWithTx, hb]
  | none =>
    rcases hf : fn [] with ⟨res, ops⟩
    cases res with
    | error e2 => simp [doWithTx, hb, hf]
    | ok tx =>
      cases hc : env.commitErr with
      | some e2 => simp [doWithTx, hb, hf, hc]
      | none => simp [doWithTx, hb, hf, hc] at h

/-- If the body fails, doWithTx fails. -/
lemma doWithTx_body_err (env : DBEnv) (db : DB)
    (fn : Tx → Except String Tx × List Op) (e : String)
    (h : (fn []).1 = .error e) : ∃ e2, (doWithTx env db fn).1 = .error e2 := by
  cases hb : env.beginErr with
  | some e2 => exact ⟨"db.Begin: " ++ e2, by simp [doWithTx, hb]⟩
  | none =>
    rcases hf : fn [] with ⟨res, ops⟩
    rw [hf] at h
    cases res with
    | error e2 => exact ⟨e2, by simp [doWithTx, hb, hf]⟩
    | ok tx => exact absurd h (by simp)

/-- If doWithTx succeeds, its body succeeded and begin and commit were clean. -/
lemma doWithTx_ok_inv (env : DBEnv) (db : DB)
    (fn : Tx → Except String Tx × List Op)
    (h : (doWithTx env db fn).1 = .ok ()) :
    ∃ tx ops, fn [] = (.ok tx, ops) ∧ env.beginErr = none ∧ env.commitErr = none := by
  cases hb : env.beginErr with
  | some e2 => simp [doWithTx, hb] at h
  | none =>
    rcases hf : fn [] with ⟨res, ops⟩
    cases res with
    | error e2 => simp [doWithTx, hb, hf] at h
    | ok tx =>
      cases hc : env.commitErr with
      | some e2 => simp [doWithTx, hb, hf, hc] at h
      | none => exact ⟨tx, ops, rfl, rfl, rfl⟩

/-- Clean run of doWithTx: commit appends the buffered rows to the store. -/
lemma doWithTx_clean (env : DBEnv) (db : DB)
    (fn : Tx → Except String Tx × List Op) (tx : Tx) (ops : List Op)
    (hb : env.beginErr = none) (hc : env.commitErr = none)
    (hf : fn [] = (.ok tx, ops)) :
    doWithTx env db fn = (.ok (), ⟨db.committed ++ tx⟩, .beginTx :: ops ++ [.commit]) := by
  simp [doWithTx, hb, hf, hc]

/-- Clean run of the metric transaction body. -/
lemma metricsTxBody_clean (env : DBEnv) (rows : List Row)
    (hp : env.prepareErr = none) (hall : ∀ r ∈ rows, env.execErr r = none) :
    metricsTxBody env rows [] = (.ok rows, .prepare :: rows.map Op.exec) := by
  have h := execLoop_all_ok env rows [] hall
  simp [metricsTxBody, hp, h]

/-- A prepare failure or any row failure makes the metric body fail. -/
lemma metricsTxBody_err (env : DBEnv) (rows : List Row)
    (h : env.prepareErr ≠ none ∨ ∃ r ∈ rows, env.execErr r ≠ none) :
    ∃ e, (metricsTxBody env rows []).1 = .error e := by
  cases hp : env.prepareErr with
  | some e => exact ⟨e, by simp [metricsTxBody, hp]⟩
  | none =>
    rcases h with h | h
    · exact absurd hp h
    · obtain ⟨e, he⟩ := execLoop_err env rows [] h
      refine ⟨e, ?_⟩
      rcases hE : execLoop env rows [] with ⟨res, ops⟩
      rw [hE] at he
      simp [metricsTxBody, hp, hE]
      simpa using he

/-- A successful metric body means prepare was clean and all rows executed. -/
lemma metricsTxBody_ok_inv (env : DBEnv) (rows : List Row) (tx : Tx) (ops : List Op)
    (h : metricsTxBody env rows [] = (.ok tx, ops)) : ∀ r ∈ rows, env.execErr r = none := by
  cases hp : env.prepareErr with
  | some e => simp [metricsTxBody, hp] at h
  | none =>
    rcases hE : execLoop env rows [] with ⟨res, ops2⟩
    simp [metricsTxBody, hp, hE] at h
    cases res with
    | error e => simp at h
    | ok tx2 =>
      exact execLoop_ok_all env rows [] tx2 (by rw [hE])

/-- The wrapped metric insert of the sum kind, away from the zero-count
short-circuit. -/
lemma sumInsert_eq (env : DBEnv) (s : sumMetrics) (db : DB) (hc : s.count ≠ 0) :
    sumMetrics.insert env s db
      = match doWithTx env db (metricsTxBody env (sumRows s)) with
        | (.error e, db2, ops) => (.error ("insert sum metrics fail:" ++ e), db2, ops)
        | (.ok _, db2, ops) => (.ok (), db2, ops) := by
  simp [sumMetrics.insert, hc]

/-- C2: for every sum push with rows present, preparation or row failure
makes the push fail with the store left exactly as before (rollback), success
implies every row executed cleanly, and in a clean environment the push
commits precisely the accumulated rows in accumulation order inside one
begin-prepare-exec-commit transaction. -/
theorem sum_insert_transactional (env : DBEnv) (s : sumMetrics) (db : DB)
    (hrows : s.count ≠ 0) :
    (∀ e, (sumMetrics.insert env s db).1 = .error e → (sumMetrics.insert env s db).2.1 = db)
  ∧ ((∃ r ∈ sumRows s, env.execErr r ≠ none) →
      ∃ e, (sumMetrics.insert env s db).1 = .error e)
  ∧ (env.prepareErr ≠ none → ∃ e, (sumMetrics.insert env s db).1 = .error e)
  ∧ ((sumMetrics.insert env s db).1 = .ok () → ∀ r ∈ sumRows s, env.execErr r = none)
  ∧ (env.beginErr = none → env.prepareErr = none → env.commitErr = none →
      (∀ r ∈ sumRows s, env.execErr r = none) →
      sumMetrics.insert env s db
        = (.ok (), ⟨db.committed ++ sumRows s⟩,
            .beginTx :: .prepare :: ((sumRows s).map Op.exec ++ [.commit]))) := by
  refine ⟨?hfr, ?hexe, ?hpre, ?hokinv, ?hclean⟩
  · rw [sumInsert_eq env s db hrows]
    rcases hD : doWithTx env db (metricsTxBody env (sumRows s)) with ⟨res, db2, ops⟩
    intro e he
    cases res with
    | error e0 =>
      have hfr := doWithTx_error_frame env db (metricsTxBody env (sumRows s)) e0 (by rw [hD])
      rw [hD] at hfr
      exact hfr
    | ok u => simp at he
  · intro hex
    rw [sumInsert_eq env s db hrows]
    rcases hD : doWithTx env db (metricsTxBody env (sumRows s)) with ⟨res, db2, ops⟩
    obtain ⟨e, he⟩ := metricsTxBody_err env (sumRows s) (Or.inr hex)
    obtain ⟨e2, he2⟩ := doWithTx_body_err env db (metricsTxBody env (sumRows s)) e he
    rw [hD] at he2
    cases res with
    | error e0 => exact ⟨"insert sum metrics fail:" ++ e0, rfl⟩
    | ok u => simp at he2
  · intro hp
    rw [sumInsert_eq env s db hrows]
    rcases hD : doWithTx env db (metricsTxBody env (sumRows s)) with ⟨res, db2, ops⟩
    obtain ⟨e, he⟩ := metricsTxBody_err env (sumRows s) (Or.inl hp)
    obtain ⟨e2, he2⟩ := doWithTx_body_err env db (metricsTxBody env (sumRows s)) e he
    rw [hD] at he2
    cases res with
    | error e0 => exact ⟨"insert sum metrics fail:" ++ e0, rfl⟩
    | ok u => simp at he2
  · rw [sumInsert_eq env s db hrows]
    rcases hD : doWithTx env db (metricsTxBody env (sumRows s)) with ⟨res, db2, ops⟩
    intro hok r hr
    cases res with
    | error e0 => simp at hok
    | ok u =>
      have h1 : (doWithTx env db (metricsTxBody env (sumRows s))).1 = .ok () := by
        rw [hD]
      obtain ⟨tx, ops2, hf, _, _⟩ := doWithTx_ok_inv env db _ h1
      exact metricsTxBody_ok_inv env (sumRows s) tx ops2 hf r hr
  · intro hb hp hcm hall
    rw [sumInsert_eq env s db hrows]
    rw [doWithTx_clean env db (metricsTxBody env (sumRows s)) (sumRows s)
      (.prepare :: (sumRows s).map Op.exec) hb hcm (metricsTxBody_clean env (sumRows s) hp hall)]
    rfl

/-- C2 witness: a failing environment rolls the push back, a clean
environment commits both accumulated rows. -/
theorem sum_insert_transactional_witness :
    (∃ e, (sumMetrics.insert envFail wSumState ⟨[]⟩).1 = .error e)
  ∧ (sumMetrics.insert envFail wSumState ⟨[]⟩).2.1 = (⟨[]⟩ : DB)
  ∧ sumMetrics.insert envOk wSumState ⟨[]⟩
      = (.ok (), ⟨sumRows wSumState⟩,
          .beginTx :: .prepare :: ((sumRows wSumState).map Op.exec ++ [.commit])) := by
  have hfail := sum_insert_transactional envFail wSumState ⟨[]⟩ (by decide)
  have hok := sum_insert_transactional envOk wSumState ⟨[]⟩ (by decide)
  obtain ⟨e, he⟩ := hfail.2.1 ⟨sumRowOf wSumModel wDp, by decide, by decide⟩
  refine ⟨⟨e, he⟩, hfail.1 e he, ?_⟩
  simpa using hok.2.2.2.2 rfl rfl rfl (fun r hr => rfl)

/-- C9: a metrics group whose accumulated row count is zero returns success
immediately: no transaction, no prepare, no exec, and the store is unchanged,
for each of the five metric kinds. -/
theorem insert_zero_rows_noop (env : DBEnv) (db : DB) :
    (∀ s : sumMetrics, s.count = 0 → sumMetrics.insert env s db = (.ok (), db, []))
  ∧ (∀ g : gaugeMetrics, g.count = 0 → gaugeMetrics.insert env g db = (.ok (), db, []))
  ∧ (∀ h : histogramMetrics, h.count = 0 → histogramMetrics.insert env h db = (.ok (), db, []))
  ∧ (∀ e : expHistogramMetrics, e.count = 0 →
      expHistogramMetrics.insert env e db = (.ok (), db, []))
  ∧ (∀ s2 : summaryMetrics, s2.count = 0 → summaryMetrics.insert env s2 db = (.ok (), db, [])) := by
  refine ⟨fun x hx => ?_, fun x hx => ?_, fun x hx => ?_, fun x hx => ?_, fun x hx => ?_⟩ <;>
    simp [sumMetrics.insert, gaugeMetrics.insert, histogramMetrics.insert,
      expHistogramMetrics.insert, summaryMetrics.insert, hx]

/-- C9 witness: empty accumulators of all five kinds are no-ops. -/
theorem insert_zero_rows_noop_witness :
    sumMetrics.insert envOk ⟨[], insertSumTableSQL, 0⟩ ⟨[]⟩ = (.ok (), ⟨[]⟩, [])
  ∧ gaugeMetrics.insert envOk ⟨[], insertGaugeTableSQL, 0⟩ ⟨[]⟩ = (.ok (), ⟨[]⟩, [])
  ∧ histogramMetrics.insert envOk ⟨[], insertHistogramTableSQL, 0⟩ ⟨[]⟩ = (.ok (), ⟨[]⟩, [])
  ∧ expHistogramMetrics.insert envOk ⟨[], insertExpHistogramTableSQL, 0⟩ ⟨[]⟩ = (.ok (), ⟨[]⟩, [])
  ∧ summaryMetrics.insert envOk ⟨[], insertSummaryTableSQL, 0⟩ ⟨[]⟩ = (.ok (), ⟨[]⟩, []) := by
  have h := insert_zero_rows_noop envOk (⟨[]⟩ : DB)
  exact ⟨h.1 _ rfl, h.2.1 _ rfl, h.2.2.1 _ rfl, h.2.2.2.1 _ rfl, h.2.2.2.2 _ rfl⟩

/-- Is this operation a row execution? -/
def Op.isExec : Op → Bool
  | .exec _ => true
  | _ => false

/-- Resource attributes of the end-to-end scenario: service name api. -/
def apiResource : AttrMap := [("service.name", "api")]

/-- The single scope of the end-to-end scenario. -/
def scenarioScope : InstrumentationScope := ⟨"app-scope", "1.0.0", [], 0⟩

/-- A double-typed monotonic data point with no exemplars. -/
def scenarioDp (v : Rat) : NumberDataPoint := ⟨[], 10, 20, 0, v, .doubleVal, 0, []⟩

/-- The scenario Sum: two data points, cumulative, monotonic. -/
def scenarioSum : Sum :=
  ⟨[scenarioDp 1, scenarioDp 2], aggregationTemporalityCumulative, true⟩

/-- The accumulator state after the scenario push walked its one metric. -/
def scenarioState : sumMetrics :=
  (sumMetrics.Add ⟨[], insertSumTableSQL, 0⟩ apiResource "" scenarioScope ""
    (.sum scenarioSum) "requests_total" "" "").1

/-- Result of inserting the scenario push into an empty store. -/
def scenarioResult : Except String Unit × DB × List Op :=
  sumMetrics.insert envOk scenarioState ⟨[]⟩

/-- Column lookup in one row, via the parsed insert column list. -/
def sumColumnOf (r : Row) (c : String) : Option Value :=
  ((parseInsertColumns insertSumTableSQL).zip r).lookup c

/-- C3: the scenario push (one resource with service api, one scope, one Sum
metric requests_total with two data points, monotonic, cumulative, no
exemplars) executes exactly two row inserts into the sum table, each row
carrying ServiceName api, MetricName requests_total, IsMonotonic true,
AggregationTemporality the cumulative ordinal and five empty exemplar
arrays. -/
theorem scenario_sum_push :
    scenarioResult.1 = .ok ()
  ∧ (scenarioResult.2.2.countP Op.isExec) = 2
  ∧ scenarioResult.2.1.committed.length = 2
  ∧ scenarioResult.2.1.committed.map (fun r => sumColumnOf r "ServiceName")
      = [some (.vStr "api"), some (.vStr "api")]
  ∧ scenarioResult.2.1.committed.map (fun r => sumColumnOf r "MetricName")
      = [some (.vStr "requests_total"), some (.vStr "requests_total")]
  ∧ scenarioResult.2.1.committed.map (fun r => sumColumnOf r "IsMonotonic")
      = [some (.vBool true), some (.vBool true)]
  ∧ scenarioResult.2.1.committed.map (fun r => sumColumnOf r "AggregationTemporality")
      = [some (.vInt aggregationTemporalityCumulative), some (.vInt aggregationTemporalityCumulative)]
  ∧ scenarioResult.2.1.committed.map (fun r => sumColumnOf r "Exemplars.FilteredAttributes")
      = [some (.vStrArr []), some (.vStrArr [])]
  ∧ scenarioResult.2.1.committed.map (fun r => sumColumnOf r "Exemplars.TimeUnix")
      = [some (.vTimeArr []), some (.vTimeArr [])]
  ∧ scenarioResult.2.1.committed.map (fun r => sumColumnOf r "Exemplars.Value")
      = [some (.vFloatArr []), some (.vFloatArr [])]
  ∧ scenarioResult.2.1.committed.map (fun r => sumColumnOf r "Exemplars.SpanId")
      = [some (.vStrArr []), some (.vStrArr [])]
  ∧ scenarioResult.2.1.committed.map (fun r => sumColumnOf r "Exemplars.TraceId")
      = [some (.vStrArr []), some (.vStrArr [])] := by decide

/-- The malformed span of the C4 failing input: its end timestamp (50ns)
precedes its start timestamp (100ns). -/
def badSpan : Span :=
  ⟨100, 50, List.replicate 15 0 ++ [1], List.replicate 7 0 ++ [1],
   List.replicate 8 0, "", "op", "SPAN_KIND_INTERNAL", "STATUS_CODE_UNSET", "",
   [], [], []⟩

/-- A trace push containing only the malformed span. -/
def badTrace : List ResourceSpans := [⟨apiResource, [⟨scenarioScope, [badSpan]⟩]⟩]

/-- Column lookup in one trace row, via the parsed insert column list. -/
def traceColumnOf (r : Row) (c : String) : Option Value :=
  ((parseInsertColumns insertTracesSQLTemplate).zip r).lookup c

/-- C4 (code behaviour at the failing input): pushTraceData computes Duration
as the signed difference end minus start and performs no negativity check: a
span whose end precedes its start is stored as a row with a negative Duration
and the push still succeeds, instead of being flagged. -/
theorem trace_negative_duration_unflagged :
    (pushTraceData envOk badTrace ⟨[]⟩).1 = .ok ()
  ∧ (pushTraceData envOk badTrace ⟨[]⟩).2.1.committed.map (fun r => traceColumnOf r "Duration")
      = [some (.vInt (-50))]
  ∧ ((-50 : Int) < 0) := by decide

/-- C8: for each of the five metric groups, Add with a mismatched variant
returns the typed error and leaves the accumulator unchanged; Add with the
expected variant appends exactly that record to that group, bumping the row
count by its data-point count. -/
theorem add_type_dispatch (resAttr : AttrMap) (resURL : String)
    (scopeInstr : InstrumentationScope) (scopeURL : String)
    (name description unit : String) (d : MetricsData) :
    (∀ s : sumMetrics,
        ((∀ x, d ≠ .sum x) →
          sumMetrics.Add s resAttr resURL scopeInstr scopeURL d name description unit
            = (s, some "metrics param is not type of Sum"))
      ∧ (∀ x, d = .sum x →
          sumMetrics.Add s resAttr resURL scopeInstr scopeURL d name description unit
            = ({ s with
                  count := s.count + x.dataPoints.length
                  sumModel := s.sumModel ++
                    [⟨name, description, unit, ⟨resAttr, resURL, scopeURL, scopeInstr⟩, x⟩] },
               none)))
  ∧ (∀ g : gaugeMetrics,
        ((∀ x, d ≠ .gauge x) →
          gaugeMetrics.Add g resAttr resURL scopeInstr scopeURL d name description unit
            = (g, some "metrics param is not type of Gauge"))
      ∧ (∀ x, d = .gauge x →
          gaugeMetrics.Add g resAttr resURL scopeInstr scopeURL d name description unit
            = ({ g with
                  count := g.count + x.dataPoints.length
                  gaugeModels := g.gaugeModels ++
                    [⟨name, description, unit, ⟨resAttr, resURL, scopeURL, scopeInstr⟩, x⟩] },
               none)))
  ∧ (∀ h : histogramMetrics,
        ((∀ x, d ≠ .histogram x) →
          histogramMetrics.Add h resAttr resURL scopeInstr scopeURL d name description unit
            = (h, some "metrics param is not type of Histogram"))
      ∧ (∀ x, d = .histogram x →
          histogramMetrics.Add h resAttr resURL scopeInstr scopeURL d name description unit
            = ({ h with
                  count := h.count + x.dataPoints.length
                  histogramModel := h.histogramModel ++
                    [⟨name, description, unit, ⟨resAttr, resURL, scopeURL, scopeInstr⟩, x⟩] },
               none)))
  ∧ (∀ eh : expHistogramMetrics,
        ((∀ x, d ≠ .expHistogram x) →
          expHistogramMetrics.Add eh resAttr resURL scopeInstr scopeURL d name description unit
            = (eh, some "metrics param is not type of ExponentialHistogram"))
      ∧ (∀ x, d = .expHistogram x →
          expHistogramMetrics.Add eh resAttr resURL scopeInstr scopeURL d name description unit
            = ({ eh with
                  count := eh.count + x.dataPoints.length
                  expHistogramModels := eh.expHistogramModels ++
                    [⟨name, description, unit, ⟨resAttr, resURL, scopeURL, scopeInstr⟩, x⟩] },
               none)))
  ∧ (∀ sm : summaryMetrics,
        ((∀ x, d ≠ .summary x) →
          summaryMetrics.Add sm resAttr resURL scopeInstr scopeURL d name description unit
            = (sm, some "metrics param is not type of Summary"))
      ∧ (∀ x, d = .summary x →
          summaryMetrics.Add sm resAttr resURL scopeInstr scopeURL d name description unit
            = ({ sm with
                  count := sm.count + x.dataPoints.length
                  summaryModel := sm.summaryModel ++
                    [⟨name, description, unit, ⟨resAttr, resURL, scopeURL, scopeInstr⟩, x⟩] },
               none))) := by
  cases d <;>
    refine ⟨fun s => ⟨fun hmis => ?_, fun x hx => ?_⟩, fun g => ⟨fun hmis => ?_, fun x hx => ?_⟩,
      fun h => ⟨fun hmis => ?_, fun x hx => ?_⟩, fun eh => ⟨fun hmis => ?_, fun x hx => ?_⟩,
      fun sm => ⟨fun hmis => ?_, fun x hx => ?_⟩⟩ <;>
    first
      | (cases hx; rfl)
      | exact MetricsData.noConfusion hx
      | exact absurd rfl (hmis _)
      | rfl

/-- C8 witness: a sum builder rejects a gauge record unchanged and accepts a
sum record by appending it. -/
theorem add_type_dispatch_witness :
    sumMetrics.Add ⟨[], insertSumTableSQL, 0⟩ [] "" wScope "" (.gauge ⟨[]⟩) "m" "" ""
      = (⟨[], insertSumTableSQL, 0⟩, some "metrics param is not type of Sum")
  ∧ sumMetrics.Add ⟨[], insertSumTableSQL, 0⟩ [] "" wScope "" (.sum wSum) "m" "" ""
      = (⟨[⟨"m", "", "", ⟨[], "", "", wScope⟩, wSum⟩], insertSumTableSQL, 1⟩, none) := by
  constructor
  · exact ((add_type_dispatch [] "" wScope "" "m" "" "" (.gauge ⟨[]⟩)).1
      ⟨[], insertSumTableSQL, 0⟩).1 (fun x h => by cases h)
  · have h := ((add_type_dispatch [] "" wScope "" "m" "" "" (.sum wSum)).1
      ⟨[], insertSumTableSQL, 0⟩).2 wSum rfl
    simpa using h

/-- Appending on the left preserves infix containment. -/
lemma isInfix_append_left (a w l : List Char) (h : List.IsInfix w l) :
    List.IsInfix w (a ++ l) := by
  obtain ⟨s, u, hst⟩ := h
  exact ⟨a ++ s, u, by rw [← hst]; simp [List.append_assoc]⟩

/-- The rendered materialized view DDL, split into its constant segments and
the substituted configuration fields. -/
lemma renderMV_eq (cfg : Config) :
    (renderTraceIDTsMaterializedViewSQL cfg).data
      = "\nCREATE MATERIALIZED VIEW IF NOT EXISTS ".data ++ (cfg.TracesTableName.data
        ++ ("_trace_id_ts_mv ".data ++ (cfg.clusterStr.data
        ++ ("\nTO ".data ++ (cfg.Database.data ++ (".".data ++ (cfg.TracesTableName.data
        ++ ("_trace_id_ts\nAS SELECT\n\tTraceId,\n\tmin(Timestamp) as Start,\n\tmax(Timestamp) as End\nFROM\n".data
        ++ (cfg.Database.data ++ (".".data ++ (cfg.TracesTableName.data
        ++ "\nWHERE TraceId != ''\nGROUP BY TraceId;\n".data))))))))))) := rfl

/-- Every key of the materialized view aggregate is a nonempty trace id. -/
lemma mvSelect_keys_ne_empty (rows : List (String × Nat)) :
    ∀ e ∈ mvSelect rows, e.1 ≠ "" := by
  intro e he
  simp only [mvSelect] at he
  rw [List.mem_map] at he
  obtain ⟨k, hk, rfl⟩ := he
  have hk2 := List.mem_dedup.mp hk
  rw [List.mem_map] at hk2
  obtain ⟨r, hr, rfl⟩ := hk2
  have hne := (List.mem_filter.mp hr).2
  simpa using hne

/-- C10: the rendered trace-id time-range materialized view DDL always
contains the WHERE filter on nonempty TraceId; the view aggregate therefore
never contains an empty trace id key, so a span whose all-zero trace id
encodes to the empty string is never represented in the companion table. -/
theorem mv_excludes_empty_traceid :
    (∀ cfg : Config,
      List.IsInfix mvWhereClause.data (renderTraceIDTsMaterializedViewSQL cfg).data)
  ∧ (∀ rows : List (String × Nat), ∀ e ∈ mvSelect rows, e.1 ≠ "")
  ∧ (∀ db : DB, "" ∉ (mvSelect (traceIdTsSource db)).map (fun e => e.1))
  ∧ (∀ id : List Nat, isEmptyID id = true → TraceIDToHexOrEmptyString id = "") := by
  refine ⟨?_, mvSelect_keys_ne_empty, ?_, ?_⟩
  · intro cfg
    rw [renderMV_eq cfg]
    iterate 12 apply isInfix_append_left
    exact ⟨"\n".data, "\nGROUP BY TraceId;\n".data, by decide⟩
  · intro db hmem
    rw [List.mem_map] at hmem
    obtain ⟨e, he, h1⟩ := hmem
    exact mvSelect_keys_ne_empty _ e he h1
  · intro id h
    simp [TraceIDToHexOrEmptyString, h]

/-- C10 witness: a concrete configuration renders the filter, a concrete row
set aggregates to a nonempty key, the empty store yields no empty key, and
the all-zero trace id encodes to the empty string. -/
theorem mv_excludes_empty_traceid_witness :
    List.IsInfix mvWhereClause.data
      (renderTraceIDTsMaterializedViewSQL ⟨"otel_traces", "otel", ""⟩).data
  ∧ (("abc", 5, 6) : String × Nat × Nat).1 ≠ ""
  ∧ "" ∉ (mvSelect (traceIdTsSource ⟨[]⟩)).map (fun e => e.1)
  ∧ TraceIDToHexOrEmptyString (List.replicate 16 0) = "" := by
  have h := mv_excludes_empty_traceid
  refine ⟨h.1 ⟨"otel_traces", "otel", ""⟩, ?_, h.2.2.1 ⟨[]⟩, h.2.2.2 _ (by decide)⟩
  exact h.2.1 [("abc", 5), ("abc", 6)] ("abc", 5, 6) (by decide)

end OtelCH
